import Mathlib

/-!
Verification of the lunar habitat layout core
(`lunar_layout`: models, constraints, generator, scoring, optimizer).

The Python source is embedded shallowly:

* Python floats become `ℚ` (exact arithmetic; the spec reads "modulo
  floating-point determinism of the host").
* The seeded Mersenne-twister RNG is abstracted as a stream of uniform
  draws `u : ℕ → ℚ` (each draw standing for `random()`'s value in `[0,1)`);
  `random.Random(seed)` becomes an abstract `mkDraws : Int → ℕ → ℚ`
  selecting the stream for a seed.  Derived draws mirror CPython:
  `uniform a b = a + (b-a)*u`, `choice`/`randint`/`sample` pick by index.
* The irrational-valued primitives `math.sqrt` and
  `math.exp(delta / max(T, 1e-6))` with `T = 0.05 ** (step/iterations)`
  are abstracted as function parameters (`sqrtFn`, `expFn`); every theorem
  quantifies over them.
* `ValidationResult.messages` (human-readable diagnostics) is not
  modelled; `passed` and `failed_rules` are.
* Source field names `usable_ratio`, `isru_ratio`, `target_isru_ratio`
  are rendered `usableFrac`, `isruFrac`, `targetIsruFrac`.
-/

unseal Rat.add Rat.mul Rat.sub Rat.inv Rat.ofScientific

set_option maxRecDepth 10000
set_option maxHeartbeats 1000000

namespace LunarLayout

/-! ## Data model (`models.py`) -/

/-- Zone: a pressurized or support zone inside the habitat
(`models.Zone`).  `usableFrac` is the source's `usable_ratio`. -/
structure Zone where
  name : String
  volume_m3 : ℚ
  usableFrac : ℚ
  privacy : String
  connections : List String
  acoustic_isolation : ℚ
  lighting : String
  is_pressurized : Bool
  is_egress : Bool
  equipment : List String
deriving DecidableEq, Repr

/-- Systems: high-level systems summary (`models.Systems`).  The free-form
`power` / `dust_mitigation` dictionaries are modelled by the keys the core
actually reads; a missing key is `none` (matching `dict.get` defaults at
each use site). -/
structure Systems where
  eclss_redundancy_loops : Int
  water_recycling_rate : ℚ
  power_autonomy_days : Option Int
  power_storage_kwh : Option ℚ
  dust_dual_door : Option Bool
  dust_suit_storage : Option Bool
deriving DecidableEq, Repr

/-- Layout: the aggregate root (`models.Layout`).  The `metadata` map is
modelled by the keys the core reads: `crew` and `duration_days` (required
by the pydantic validator) and the optional `seed`.  `isruFrac` is the
source's `isru_ratio`. -/
structure Layout where
  habitat_name : String
  habitat_type : String
  pressurized_volume_m3 : ℚ
  zones : List Zone
  systems : Systems
  shield_equivalent_g_cm2 : ℚ
  isruFrac : ℚ
  docking_ports : Int
  meta_crew : Int
  meta_duration_days : Int
  meta_seed : Option Int
deriving DecidableEq, Repr

/-- Metrics bundle (`models.Metrics`). -/
structure Metrics where
  nhv_m3 : ℚ
  nhv_efficiency : ℚ
  transit_distance_score : ℚ
  privacy_score : ℚ
  sustainability_score : ℚ
  energy_use_kwh_per_person_day : ℚ
  safety_redundancy_score : ℚ
  feasibility : Bool
deriving DecidableEq, Repr

/-- Validation thresholds (`models.ConstraintSettings`). -/
structure ConstraintSettings where
  min_crew : Int
  max_crew : Int
  min_duration_days : Int
  max_duration_days : Int
  min_nhv_per_person : ℚ
  min_nhv_efficiency : ℚ
  min_shield_g_cm2 : ℚ
  min_eclss_loops : Int
  min_water_recycling : ℚ
  min_power_autonomy_days : Int
  min_privacy_quarters : ℚ
  required_zones : List String
  adjacency_pairs : List (String × String)
  max_storm_shelter_hops : Int
deriving DecidableEq, Repr

/-- Default `ConstraintSettings` (the pydantic field defaults). -/
def defaultSettings : ConstraintSettings :=
  { min_crew := 2
    max_crew := 4
    min_duration_days := 30
    max_duration_days := 180
    min_nhv_per_person := 25
    min_nhv_efficiency := 7/10
    min_shield_g_cm2 := 5
    min_eclss_loops := 2
    min_water_recycling := 9/10
    min_power_autonomy_days := 14
    min_privacy_quarters := 7/10
    required_zones :=
      ["Airlock", "Work", "HygieneMedical", "GalleyDining", "CrewQuarters",
       "Exercise", "MaintenanceStorage", "StormShelter"]
    adjacency_pairs :=
      [("Airlock", "Work"), ("CrewQuarters", "HygieneMedical"),
       ("CrewQuarters", "GalleyDining")]
    max_storm_shelter_hops := 3 }

/-- Weights for the multi-objective score (`models.ScoreWeights`). -/
structure ScoreWeights where
  w_volume_eff : ℚ
  w_privacy : ℚ
  w_transit : ℚ
  w_safety : ℚ
  w_sustain : ℚ
  w_energy : ℚ
deriving DecidableEq, Repr

/-- Default `ScoreWeights` (pydantic field defaults). -/
def defaultWeights : ScoreWeights :=
  { w_volume_eff := 1/5, w_privacy := 3/20, w_transit := 3/20
    w_safety := 1/5, w_sustain := 3/20, w_energy := 3/20 }

/-- Sum of the six weights. -/
def ScoreWeights.total (w : ScoreWeights) : ℚ :=
  w.w_volume_eff + w.w_privacy + w.w_transit + w.w_safety + w.w_sustain + w.w_energy

/-- Normalized weights (`ScoreWeights.normalized`).  The source raises
when the total is not positive; here division by a zero total yields `0`
(that error path is outside the verified claims). -/
def ScoreWeights.normalized (w : ScoreWeights) : ScoreWeights :=
  { w_volume_eff := w.w_volume_eff / w.total
    w_privacy := w.w_privacy / w.total
    w_transit := w.w_transit / w.total
    w_safety := w.w_safety / w.total
    w_sustain := w.w_sustain / w.total
    w_energy := w.w_energy / w.total }

/-- Validation result (`models.ValidationResult`); `messages` omitted. -/
structure ValidationResult where
  passed : Bool
  failed_rules : List String
deriving DecidableEq, Repr

/-- One optimizer step summary (`models.OptimizationLogEntry`). -/
structure OptimizationLogEntry where
  iteration : ℕ
  score : ℚ
  accepted : Bool
  reason : String
deriving DecidableEq, Repr

/-- Optimizer output bundle (`models.OptimizationResult`). -/
structure OptimizationResult where
  layout : Layout
  metrics : Metrics
  score : ℚ
  history : List OptimizationLogEntry
deriving DecidableEq, Repr

/-! ## Adjacency graphs (`constraints.py`)

Python's `Dict[str, List[str]]` with insertion order is modelled by an
association list. -/

/-- Insertion-ordered string graph: `Dict[str, List[str]]`. -/
abbrev Graph : Type := List (String × List String)

/-- Membership of a key (`k in graph`). -/
def Graph.hasKey (g : Graph) (k : String) : Bool :=
  (List.map Prod.fst g).contains k

/-- Lookup with default `[]` (`graph.get(k, [])` / `graph[k]` for present keys). -/
def Graph.get (g : Graph) (k : String) : List String :=
  match List.find? (fun p => p.1 = k) g with
  | some p => p.2
  | none => []

/-- The keys in insertion order (`for node in graph`). -/
def Graph.keys (g : Graph) : List String :=
  List.map Prod.fst g

/-- Python `graph.setdefault(k, [])`: insert an empty bucket at the end
when the key is absent. -/
def Graph.setdefault (g : Graph) (k : String) : Graph :=
  if g.hasKey k then g else g ++ [(k, [])]

/-- Append `v` to the bucket of `k` (assumes the key is present). -/
def Graph.push (g : Graph) (k v : String) : Graph :=
  List.map (fun p => if p.1 = k then (p.1, p.2 ++ [v]) else p) g

/-- Total length of all adjacency lists (used to size fuel bounds). -/
def Graph.adjSize (g : Graph) : ℕ :=
  List.foldl (fun acc p => acc + p.2.length) 0 g

/-- Symmetrize one declared neighbor, skipping self-loops and duplicate
edges (the inner loop body of `_build_adjacency`). -/
def addNeighbor (zname : String) (g : Graph) (nbr : String) : Graph :=
  if nbr = zname then g
  else
    let g := g.setdefault nbr
    let g := if (g.get zname).contains nbr then g else g.push zname nbr
    if (g.get nbr).contains zname then g else g.push nbr zname

/-- Undirected adjacency graph of a layout (`_build_adjacency`). -/
def buildAdjacency (layout : Layout) : Graph :=
  List.foldl
    (fun g z => List.foldl (addNeighbor z.name) (g.setdefault z.name) z.connections)
    [] layout.zones

/-- Fuel bound for the traversals below.  Every BFS pops at most
`1 + adjSize` queue entries and every DFS step either pushes a frame
(at most once per reachable name), shortens a frame's neighbor list, or
pops a frame, so `4 * (keys + adjSize + 1)` strictly dominates the number
of loop steps either traversal can take. -/
def Graph.fuel (g : Graph) : ℕ :=
  4 * (g.length + g.adjSize + 1)

/-- Breadth-first reachability loop of the connectivity rule
(`validate_layout`, the `while queue` loop): pop, skip seen nodes,
append unseen neighbors.  Returns the `seen` list in insertion order. -/
def bfsLoop (g : Graph) : ℕ → List String → List String → List String
  | 0, _, seen => seen
  | _ + 1, [], seen => seen
  | fuel + 1, node :: queue, seen =>
    if seen.contains node then bfsLoop g fuel queue seen
    else
      bfsLoop g fuel (queue ++ (g.get node).filter (fun nbr => ¬ seen.contains nbr))
        (seen ++ [node])

/-- The set of nodes the connectivity BFS reaches from the graph's first
key (`seen` at the end of the `while queue` loop). -/
def connectivitySeen (g : Graph) : List String :=
  match g with
  | [] => []
  | (start, _) :: _ => bfsLoop g g.fuel [start] []

/-- One suspended activation of the recursive `dfs` of `_has_cycle`:
the node being expanded, its `parent`, and its still-unprocessed
neighbors. -/
structure DfsFrame where
  node : String
  parent : String
  rest : List String
deriving DecidableEq, Repr

/-- Small-step execution of the recursive `dfs(node, parent)` of
`_has_cycle` with an explicit frame stack.  A frame's next neighbor is
skipped when it equals the parent, reports a cycle when already visited,
and otherwise opens a new frame (marking the neighbor visited on entry,
as `visited[node] = parent` does).  Returns the flag and the final
visited list. -/
def dfsLoop (g : Graph) : ℕ → List DfsFrame → List String → Bool × List String
  | 0, _, visited => (false, visited)
  | _ + 1, [], visited => (false, visited)
  | fuel + 1, fr :: stack, visited =>
    match fr.rest with
    | [] => dfsLoop g fuel stack visited
    | nbr :: rest =>
      if nbr = fr.parent then
        dfsLoop g fuel ({ fr with rest := rest } :: stack) visited
      else if visited.contains nbr then (true, visited)
      else
        dfsLoop g fuel
          (⟨nbr, fr.node, g.get nbr⟩ :: { fr with rest := rest } :: stack)
          (visited ++ [nbr])

/-- Outer loop of `_has_cycle`: start a DFS from every not-yet-visited
key, in insertion order, threading the shared `visited` map. -/
def hasCycleLoop (g : Graph) : ℕ → List String → List String → Bool
  | 0, _, _ => false
  | _ + 1, [], _ => false
  | fuel + 1, k :: ks, visited =>
    if visited.contains k then hasCycleLoop g fuel ks visited
    else
      match dfsLoop g g.fuel [⟨k, "", g.get k⟩] (visited ++ [k]) with
      | (true, _) => true
      | (false, visited) => hasCycleLoop g fuel ks visited

/-- Whether the undirected graph contains a cycle (`_has_cycle`):
depth-first traversal flagging any edge to a previously visited
non-parent node. -/
def hasCycle (g : Graph) : Bool :=
  hasCycleLoop g (g.length + 1) g.keys []

/-- Breadth-first shortest-path loop of `_storm_distance`: the queue
holds `(node, dist)` pairs and `seen` is extended at enqueue time. -/
def stormLoop (g : Graph) (target : String) :
    ℕ → List (String × Int) → List String → Int
  | 0, _, _ => -1
  | _ + 1, [], _ => -1
  | fuel + 1, (node, dist) :: queue, seen =>
    if node = target then dist
    else
      let fresh := (g.get node).filter (fun nbr => ¬ seen.contains nbr)
      stormLoop g target fuel (queue ++ fresh.map (fun nbr => (nbr, dist + 1)))
        (seen ++ fresh)

/-- Breadth-first hop distance from `start` to `target`, `-1` when
unreachable (`_storm_distance`). -/
def stormDistance (g : Graph) (start target : String) : Int :=
  stormLoop g target g.fuel [(start, 0)] [start]

/-! ## Validator (`constraints.validate_layout`) -/

/-- Net habitable volume: `Σ volume * usable` over pressurized zones
(`_nhv`). -/
def nhv (layout : Layout) : ℚ :=
  List.foldl (fun acc z => acc + z.volume_m3 * z.usableFrac) 0
    (layout.zones.filter (fun z => z.is_pressurized))

/-- Insert into a set-as-list, keeping first-insertion order
(Python `set` used only through `len` and membership). -/
def setInsert (l : List String) (s : String) : List String :=
  if l.contains s then l else l ++ [s]

/-- The set of declared zone names (`{zone.name for zone in layout.zones}`). -/
def zoneNameSet (layout : Layout) : List String :=
  List.foldl setInsert [] (layout.zones.map (fun z => z.name))

/-- Last zone with the given name, mirroring the dict comprehension
`{zone.name: zone for zone in layout.zones}` where later entries win. -/
def zoneByName (layout : Layout) (n : String) : Option Zone :=
  layout.zones.reverse.find? (fun z => z.name = n)

/-- Rule 1: crew count within range (`crew_range`). -/
def crewRule (crew : Int) (s : ConstraintSettings) : List String :=
  if ¬ (s.min_crew ≤ crew ∧ crew ≤ s.max_crew) then ["crew_range"] else []

/-- Rule 2: mission duration within range (`duration_range`). -/
def durationRule (duration : Int) (s : ConstraintSettings) : List String :=
  if ¬ (s.min_duration_days ≤ duration ∧ duration ≤ s.max_duration_days) then
    ["duration_range"]
  else []

/-- Rule 3: all required zones present (`required_zones`). -/
def requiredRule (layout : Layout) (s : ConstraintSettings) : List String :=
  if (s.required_zones.filter (fun z => ¬ (zoneNameSet layout).contains z)) ≠ [] then
    ["required_zones"]
  else []

/-- Rule 4: NHV meets the per-crew requirement (`nhv_per_crew`). -/
def nhvRule (nhvValue : ℚ) (crew : Int) (s : ConstraintSettings) : List String :=
  if nhvValue < crew * s.min_nhv_per_person then ["nhv_per_crew"] else []

/-- Rule 5: NHV efficiency (`nhv_efficiency`). -/
def nhvEffRule (nhvEff : ℚ) (s : ConstraintSettings) : List String :=
  if nhvEff < s.min_nhv_efficiency then ["nhv_efficiency"] else []

/-- Rule 6: shielding (`radiation_shield`). -/
def shieldRule (layout : Layout) (s : ConstraintSettings) : List String :=
  if layout.shield_equivalent_g_cm2 < s.min_shield_g_cm2 then ["radiation_shield"]
  else []

/-- Rule 7: ECLSS redundancy (`eclss_redundancy`). -/
def eclssRule (layout : Layout) (s : ConstraintSettings) : List String :=
  if layout.systems.eclss_redundancy_loops < s.min_eclss_loops then
    ["eclss_redundancy"]
  else []

/-- Rule 8: water recycling (`water_recycling`). -/
def waterRule (layout : Layout) (s : ConstraintSettings) : List String :=
  if layout.systems.water_recycling_rate < s.min_water_recycling then
    ["water_recycling"]
  else []

/-- Rule 9: power autonomy (`power_autonomy`);
`int(systems.power.get("autonomy_days", 0))`. -/
def autonomyRule (layout : Layout) (s : ConstraintSettings) : List String :=
  if (layout.systems.power_autonomy_days).getD 0 < s.min_power_autonomy_days then
    ["power_autonomy"]
  else []

/-- Rule 10: dust mitigation needs both flags truthy (`dust_mitigation`). -/
def dustRule (layout : Layout) : List String :=
  if ¬ ((layout.systems.dust_dual_door).getD false = true ∧
        (layout.systems.dust_suit_storage).getD false = true) then
    ["dust_mitigation"]
  else []

/-- Rules 11 and 12: connectivity and redundant paths.  Mirrors the
source block: an empty graph fails `connectivity` outright; otherwise the
BFS `seen` count is compared with the number of declared zone names, and
the cycle check runs only when `"connectivity"` was not just appended
(no earlier rule ever appends that id, so the source's membership test on
the accumulated list reduces to this local condition). -/
def graphRules (g : Graph) (zoneNameCount : ℕ) : List String :=
  match g with
  | [] => ["connectivity"]
  | _ :: _ =>
    let connFail := (connectivitySeen g).length ≠ zoneNameCount
    (if connFail then ["connectivity"] else []) ++
      (if ¬ hasCycle g ∧ ¬ connFail then ["redundant_paths"] else [])

/-- Rule 13: each required adjacency pair has a direct edge
(`adjacency_{a}_{b}`). -/
def adjacencyRule (g : Graph) (s : ConstraintSettings) : List String :=
  List.foldl
    (fun acc p =>
      if g.hasKey p.1 ∧ (g.get p.1).contains p.2 then acc
      else acc ++ ["adjacency_" ++ p.1 ++ "_" ++ p.2])
    [] s.adjacency_pairs

/-- Rule 14: at least two egress-capable zones (`egress_paths`). -/
def egressRule (layout : Layout) : List String :=
  if (layout.zones.filter (fun z => z.is_egress)).length < 2 then ["egress_paths"]
  else []

/-- Rule 15: storm shelter reachability (`storm_shelter_access`).  The
source loop breaks at the first zone whose distance is `-1` or exceeds
the hop budget; absence of a StormShelter zone or an empty graph fails
immediately. -/
def stormRule (layout : Layout) (g : Graph) (s : ConstraintSettings) : List String :=
  match zoneByName layout "StormShelter" with
  | some shelter =>
    if g ≠ [] then
      if layout.zones.any (fun z =>
          let dist := stormDistance g z.name shelter.name
          dist = -1 ∨ dist > s.max_storm_shelter_hops) then
        ["storm_shelter_access"]
      else []
    else ["storm_shelter_access"]
  | none => ["storm_shelter_access"]

/-- Rule 16: crew-quarters privacy (`crew_privacy`); a missing
CrewQuarters zone only gets a message, not a failure. -/
def privacyRule (layout : Layout) (s : ConstraintSettings) : List String :=
  match zoneByName layout "CrewQuarters" with
  | none => []
  | some q =>
    if q.privacy ≠ "High" ∨ q.acoustic_isolation < s.min_privacy_quarters then
      ["crew_privacy"]
    else []

/-- The ordered failed-rule list accumulated by `validate_layout`. -/
def failedRules (layout : Layout) (s : ConstraintSettings) : List String :=
  let crew := layout.meta_crew
  let duration := layout.meta_duration_days
  let g := buildAdjacency layout
  let nhvValue := nhv layout
  let nhvEff :=
    if layout.pressurized_volume_m3 ≠ 0 then nhvValue / layout.pressurized_volume_m3
    else 0
  crewRule crew s ++ durationRule duration s ++ requiredRule layout s ++
    nhvRule nhvValue crew s ++ nhvEffRule nhvEff s ++ shieldRule layout s ++
    eclssRule layout s ++ waterRule layout s ++ autonomyRule layout s ++
    dustRule layout ++ graphRules g (zoneNameSet layout).length ++
    adjacencyRule g s ++ egressRule layout ++ stormRule layout g s ++
    privacyRule layout s

/-- Validate a layout against the mission hard constraints
(`constraints.validate_layout`). -/
def validateLayout (layout : Layout) (s : ConstraintSettings) : ValidationResult :=
  let failed := failedRules layout s
  { passed := failed.isEmpty, failed_rules := failed }

/-! ## Scorer (`scoring.py`) -/

/-- Privacy weight table with its `.get(_, 0.3)` default
(`PRIVACY_WEIGHTS`). -/
def privacyWeight (p : String) : ℚ :=
  if p = "Low" then 3/10 else if p = "Medium" then 3/5
  else if p = "High" then 1 else 3/10

/-- Acoustic target per zone name (`ACOUSTIC_TARGETS`). -/
def acousticTarget (n : String) : Option ℚ :=
  if n = "CrewQuarters" then some (7/10)
  else if n = "Exercise" then some (3/5)
  else if n = "Work" then some (1/2)
  else none

/-- Fraction of required adjacency pairs satisfied by a direct edge
(`_transit_score`).  The local set-valued graph the source builds has the
same membership as `buildAdjacency` (same symmetrization, self-loop skip
and deduplication), which is reused here. -/
def transitScore (layout : Layout) (s : ConstraintSettings) : ℚ :=
  let g := buildAdjacency layout
  if s.adjacency_pairs = [] then 1
  else
    let satisfied := (s.adjacency_pairs.filter (fun p =>
      (g.get p.1).contains p.2 ∨ (g.get p.2).contains p.1)).length
    (satisfied : ℚ) / (s.adjacency_pairs.length : ℚ)

/-- Mean clamped privacy score over zones (`_privacy_score`). -/
def privacyScore (layout : Layout) : ℚ :=
  if layout.zones = [] then 0
  else
    let total := List.foldl
      (fun acc z =>
        let bonus := match acousticTarget z.name with
          | some t => min (max (z.acoustic_isolation - t) 0) (3/10)
          | none => 0
        acc + max (min (privacyWeight z.privacy + bonus) 1) 0)
      0 layout.zones
    total / (layout.zones.length : ℚ)

/-- Sustainability score (`_sustainability_score`). -/
def sustainabilityScore (layout : Layout) (s : ConstraintSettings) : ℚ :=
  let waterFactor := min (layout.systems.water_recycling_rate / s.min_water_recycling) (6/5)
  let isruFactor := min (layout.isruFrac / (1/2)) (6/5)
  min ((waterFactor + isruFactor) / 2) 1

/-- Energy use in kWh per person-day (`_energy_per_person_day`), with the
source's `dict.get` defaults (`autonomy_days` 1, `storage_kwh` 120). -/
def energyPerPersonDay (layout : Layout) : ℚ :=
  let crew := layout.meta_crew
  let autonomy := (layout.systems.power_autonomy_days).getD 1
  let storage := (layout.systems.power_storage_kwh).getD 120
  if crew ≤ 0 ∨ autonomy ≤ 0 then 10
  else storage / ((crew : ℚ) * (autonomy : ℚ))

/-- Safety score (`_safety_score`). -/
def safetyScore (layout : Layout) (s : ConstraintSettings) : ℚ :=
  let loopsFactor :=
    min ((layout.systems.eclss_redundancy_loops : ℚ) / (s.min_eclss_loops : ℚ)) (3/2)
  let egressCount := (layout.zones.filter (fun z => z.is_egress)).length
  let egressFactor := min ((egressCount : ℚ) / 2) 1
  let shelterFactor :=
    if layout.zones.any (fun z => z.name = "StormShelter") then (1 : ℚ) else 0
  min ((loopsFactor + egressFactor + shelterFactor) / 3) 1

/-- The energy contribution to the scalar score:
`max(0.0, min(2.0 / max(energy, 1e-6), 1.0))`. -/
def energyScoreOf (energy : ℚ) : ℚ :=
  max 0 (min (2 / max energy (1/1000000)) 1)

/-- The weighted scalar objective before the feasibility penalty: the
normalized-weight sum of the six sub-score terms computed in `evaluate`. -/
def rawScore (layout : Layout) (s : ConstraintSettings) (weights : ScoreWeights) : ℚ :=
  let w := weights.normalized
  let nhvEff :=
    if layout.pressurized_volume_m3 ≠ 0 then nhv layout / layout.pressurized_volume_m3
    else 0
  w.w_volume_eff * min (nhvEff / s.min_nhv_efficiency) (6/5) +
    w.w_privacy * privacyScore layout +
    w.w_transit * transitScore layout s +
    w.w_safety * safetyScore layout s +
    w.w_sustain * sustainabilityScore layout s +
    w.w_energy * energyScoreOf (energyPerPersonDay layout)

/-- Compute metrics and the weighted score for a layout
(`scoring.evaluate`); infeasible layouts have their score halved. -/
def evaluate (layout : Layout) (s : ConstraintSettings) (weights : ScoreWeights) :
    Metrics × ℚ :=
  let nhvValue := nhv layout
  let nhvEff :=
    if layout.pressurized_volume_m3 ≠ 0 then nhvValue / layout.pressurized_volume_m3
    else 0
  let feasibility := (validateLayout layout s).passed
  let metrics : Metrics :=
    { nhv_m3 := nhvValue
      nhv_efficiency := nhvEff
      transit_distance_score := transitScore layout s
      privacy_score := privacyScore layout
      sustainability_score := sustainabilityScore layout s
      energy_use_kwh_per_person_day := energyPerPersonDay layout
      safety_redundancy_score := safetyScore layout s
      feasibility := feasibility }
  let score := rawScore layout s weights
  (metrics, if feasibility then score else score * (1/2))

/-! ## Generator (`generator.py`)

The generator's `random.Random(seed)` is abstracted by the draw stream
`u : ℕ → ℚ`, draw `i` standing for the `random()` value (in `[0,1)`)
behind the `i`-th `rng.uniform(-0.05, 0.05)` jitter call, so the jitter
for zone `i` is `-0.05 + 0.1 * u i`. -/

/-- Usable fractions per zone kind with the `.get(_, 0.8)` default
(`DEFAULT_USABLE`). -/
def defaultUsable (n : String) : ℚ :=
  if n = "Airlock" then 3/5 else if n = "Work" then 17/20
  else if n = "HygieneMedical" then 4/5 else if n = "GalleyDining" then 17/20
  else if n = "CrewQuarters" then 9/10 else if n = "Exercise" then 4/5
  else if n = "MaintenanceStorage" then 3/4 else if n = "StormShelter" then 7/10
  else if n = "Agriculture" then 17/20 else 4/5

/-- Base volume fractions in table order (`BASE_VOLUME_FRACTIONS`). -/
def baseVolumeFractions : List (String × ℚ) :=
  [("Airlock", 7/100), ("Work", 18/100), ("HygieneMedical", 9/100),
   ("GalleyDining", 11/100), ("CrewQuarters", 20/100), ("Exercise", 10/100),
   ("MaintenanceStorage", 10/100), ("StormShelter", 7/100), ("Agriculture", 8/100)]

/-- Default privacy per zone kind with the `.get(_, "Medium")` default
(`PRIVACY_DEFAULT`). -/
def privacyDefault (n : String) : String :=
  if n = "Airlock" then "Low" else if n = "Work" then "Medium"
  else if n = "HygieneMedical" then "High" else if n = "GalleyDining" then "Medium"
  else if n = "CrewQuarters" then "High" else if n = "Exercise" then "Medium"
  else if n = "MaintenanceStorage" then "Low" else if n = "StormShelter" then "High"
  else if n = "Agriculture" then "Medium" else "Medium"

/-- Default acoustic isolation per zone kind with the `.get(_, 0.6)`
default (`ACOUSTIC_DEFAULT`). -/
def acousticDefault (n : String) : ℚ :=
  if n = "Airlock" then 2/5 else if n = "Work" then 11/20
  else if n = "HygieneMedical" then 3/4 else if n = "GalleyDining" then 3/5
  else if n = "CrewQuarters" then 4/5 else if n = "Exercise" then 13/20
  else if n = "MaintenanceStorage" then 1/2 else if n = "StormShelter" then 17/20
  else if n = "Agriculture" then 3/5 else 3/5

/-- Default connection lists (`CONNECTIONS`), `.get(_, [])`. -/
def connectionsDefault (n : String) : List String :=
  if n = "Airlock" then ["MaintenanceStorage", "Work"]
  else if n = "MaintenanceStorage" then ["Airlock", "Work", "StormShelter", "Agriculture"]
  else if n = "Work" then ["Airlock", "GalleyDining", "Exercise", "MaintenanceStorage"]
  else if n = "GalleyDining" then ["Work", "CrewQuarters", "Agriculture"]
  else if n = "CrewQuarters" then ["GalleyDining", "HygieneMedical", "Exercise"]
  else if n = "HygieneMedical" then ["CrewQuarters", "StormShelter"]
  else if n = "Exercise" then ["CrewQuarters", "Work"]
  else if n = "StormShelter" then ["HygieneMedical", "MaintenanceStorage"]
  else if n = "Agriculture" then ["GalleyDining", "MaintenanceStorage"]
  else []

/-- Default equipment lists (`EQUIPMENT`), `.get(_, [])`. -/
def equipmentDefault (n : String) : List String :=
  if n = "Airlock" then ["dual-door", "suit-lock", "dust-scrubber"]
  else if n = "Work" then ["lab-bench", "fab-station"]
  else if n = "HygieneMedical" then ["med-kit", "hygiene-module"]
  else if n = "GalleyDining" then ["galley", "table"]
  else if n = "CrewQuarters" then ["pods", "privacy-panels"]
  else if n = "Exercise" then ["treadmill", "flywheel"]
  else if n = "MaintenanceStorage" then ["tool-racks", "spares"]
  else if n = "StormShelter" then ["shielded-bunks", "backup-comms"]
  else if n = "Agriculture" then ["hydroponics", "algae"]
  else []

/-- Generator configuration with the `config.get` defaults of
`generate_initial_layout`.  `targetIsruFrac` is the source's
`target_isru_ratio`. -/
structure GenConfig where
  crew : Int := 4
  duration_days : Int := 90
  habitat_type : String := "Inflatable"
  pressurized_volume_m3 : ℚ := 160
  targetIsruFrac : ℚ := 3/5
  docking_ports : Int := 2
  seed : Int := 42
  habitat_name : String := "Helios-Init"
deriving DecidableEq, Repr

/-- Generation failures: the crew-bounds `ValueError` versus the
post-validation `ValueError` carrying the failed rule ids. -/
inductive GenError where
  | configError
  | generationError (failed_rules : List String)
deriving DecidableEq, Repr

/-- Volume of one zone before jitter: `pressurized * frac / total_fraction`
(`_scale_volumes`), multiplied by `max(1, crew/4)` for crew-sensitive
zones. -/
def baseVolume (config : GenConfig) (name : String) (frac totalFraction : ℚ) : ℚ :=
  let volume := config.pressurized_volume_m3 * frac / totalFraction
  if name = "CrewQuarters" ∨ name = "GalleyDining" ∨ name = "HygieneMedical" ∨
      name = "Exercise" ∨ name = "Agriculture" then
    volume * max 1 ((config.crew : ℚ) / 4)
  else volume

/-- Jittered volume of the zone holding draw `ui`:
`volume *= 1 + uniform(-0.05, 0.05); volume = max(volume, 5.0)`. -/
def jitteredVolume (volume ui : ℚ) : ℚ :=
  max (volume * (1 + (-(1/20) + (1/10) * ui))) 5

/-- One generated zone record (the `Zone(...)` construction in the
generator's loop). -/
def genZone (config : GenConfig) (name : String) (frac totalFraction : ℚ) : Zone :=
  { name := name
    volume_m3 := baseVolume config name frac totalFraction
    usableFrac := defaultUsable name
    privacy := privacyDefault name
    connections := connectionsDefault name
    acoustic_isolation := acousticDefault name
    lighting := if name = "CrewQuarters" ∨ name = "GalleyDining" then "Adaptive"
      else "Neutral4000K"
    is_pressurized := true
    is_egress := name = "Airlock" ∨ name = "StormShelter"
    equipment := equipmentDefault name }

/-- Sum of zone volumes. -/
def zoneVolumeSum (zones : List Zone) : ℚ :=
  List.foldl (fun acc z => acc + z.volume_m3) 0 zones

/-- The generated systems template. -/
def genSystems (s : ConstraintSettings) : Systems :=
  { eclss_redundancy_loops := 2
    water_recycling_rate := 23/25
    power_autonomy_days := some (max s.min_power_autonomy_days 14)
    power_storage_kwh := some 160
    dust_dual_door := some true
    dust_suit_storage := some true }

/-- The generator's zone list after the table-driven construction and
the per-zone jitter draw with the 5 m³ floor (the state right before
renormalization). -/
def jitteredZones (config : GenConfig) (u : ℕ → ℚ) : List Zone :=
  let totalFraction := List.foldl (fun acc p => acc + p.2) 0 baseVolumeFractions
  let zones := baseVolumeFractions.map (fun p => genZone config p.1 p.2 totalFraction)
  List.zipWith (fun z i => { z with volume_m3 := jitteredVolume z.volume_m3 (u i) })
    zones (List.range zones.length)

/-- The layout assembled by `generate_initial_layout` before its
validation step: table-driven zones, per-zone jitter draw, the 5 m³
floor, and renormalization of all volumes to the configured pressurized
volume. -/
def buildInitial (config : GenConfig) (u : ℕ → ℚ) (s : ConstraintSettings) : Layout :=
  let zones := jitteredZones config u
  let total := zoneVolumeSum zones
  let scaling := if total ≠ 0 then config.pressurized_volume_m3 / total else 1
  let zones := zones.map (fun z => { z with volume_m3 := z.volume_m3 * scaling })
  { habitat_name := config.habitat_name
    habitat_type := config.habitat_type
    pressurized_volume_m3 := config.pressurized_volume_m3
    zones := zones
    systems := genSystems s
    shield_equivalent_g_cm2 := max (11/2) (5 + (1/5) * (config.crew : ℚ))
    isruFrac := min 1 (max (1/2) config.targetIsruFrac)
    docking_ports := config.docking_ports
    meta_crew := config.crew
    meta_duration_days := config.duration_days
    meta_seed := some config.seed }

/-- The gate of the one-shot corrective pass:
`{"nhv_per_crew", "nhv_efficiency"} & set(result.failed_rules)` is
nonempty. -/
def healCondition (failed : List String) : Bool :=
  failed.contains "nhv_per_crew" ∨ failed.contains "nhv_efficiency"

/-- The corrective pass: boost CrewQuarters/GalleyDining/HygieneMedical/
StormShelter volumes by `sqrt(needed_nhv / current_nhv)` (or `1.1` when
the current NHV is zero) and recompute the total pressurized volume.
`sqrtFn` abstracts `math.sqrt`. -/
def healPass (sqrtFn : ℚ → ℚ) (layout : Layout) (s : ConstraintSettings) : Layout :=
  let neededNhv := (layout.meta_crew : ℚ) * s.min_nhv_per_person
  let currentNhv := List.foldl (fun acc z => acc + z.volume_m3 * z.usableFrac) 0 layout.zones
  let boost := if currentNhv ≠ 0 then sqrtFn (neededNhv / currentNhv) else 11/10
  let zones := layout.zones.map (fun z =>
    if z.name = "CrewQuarters" ∨ z.name = "GalleyDining" ∨
        z.name = "HygieneMedical" ∨ z.name = "StormShelter" then
      { z with volume_m3 := z.volume_m3 * boost }
    else z)
  { layout with zones := zones, pressurized_volume_m3 := zoneVolumeSum zones }

/-- Generate a feasible baseline layout (`generate_initial_layout`):
crew bounds check, table-driven construction, validation, at most one
corrective pass gated by `healCondition`, one re-validation, and a
generation error carrying the still-failing rule ids. -/
def generateInitialLayout (sqrtFn : ℚ → ℚ) (u : ℕ → ℚ) (config : GenConfig)
    (s : ConstraintSettings) : Except GenError Layout :=
  if config.crew < s.min_crew ∨ config.crew > s.max_crew then .error .configError
  else
    let layout := buildInitial config u s
    let result := validateLayout layout s
    if result.passed then .ok layout
    else
      let doHeal := healCondition result.failed_rules
      let layout2 := if doHeal then healPass sqrtFn layout s else layout
      let result2 := if doHeal then validateLayout layout2 s else result
      if result2.passed then .ok layout2
      else .error (.generationError result2.failed_rules)

/-! ## Optimizer (`optimizer.py`)

`random.Random` is abstracted as a stream of uniform draws with a
counter; each primitive mirrors the corresponding CPython call in how it
maps a draw to a value, and, critically for determinism and history
shape, in *when* a draw is consumed (e.g. the Metropolis `rng.random()`
is only drawn when `delta < 0`, matching Python's short-circuit `or`).
`_copy_layout` deep-copies; in this pure embedding a value copy is the
identity. -/

/-- Abstract RNG: the draw stream and the index of the next draw. -/
structure RandState where
  draws : ℕ → ℚ
  k : ℕ

/-- Take the next uniform `[0,1)` draw (`rng.random()`). -/
def RandState.next (r : RandState) : ℚ × RandState :=
  (r.draws r.k, { r with k := r.k + 1 })

/-- Uniform draw in `[a, b)` (`rng.uniform(a, b)` = `a + (b-a)*random()`). -/
def uniformDraw (a b : ℚ) (r : RandState) : ℚ × RandState :=
  let (x, r') := r.next
  (a + (b - a) * x, r')

/-- Index selection among `n` items (`rng.choice` on a length-`n`
sequence): scale a draw and clamp into `0 .. n-1`. -/
def indexDraw (n : ℕ) (r : RandState) : ℕ × RandState :=
  let (x, r') := r.next
  (min (max (⌊x * n⌋) 0).toNat (n - 1), r')

/-- Integer draw in `[a, b]` (`rng.randint(a, b)`). -/
def randintDraw (a b : Int) (r : RandState) : Int × RandState :=
  let (x, r') := r.next
  (a + min (max (⌊x * ((b - a + 1) : ℤ)⌋) 0) (b - a), r')

/-- Replace the zone at position `i` using `f`. -/
def updateZone (zones : List Zone) (i : ℕ) (f : Zone → Zone) : List Zone :=
  List.zipWith (fun z j => if j = i then f z else z) zones (List.range zones.length)

/-- Neighbor operator `_op_adjust_zone_volume`: sample two distinct
zones outside {Airlock, StormShelter} (`rng.sample(adjustable, 2)`,
modelled as an index draw over `n` followed by one over `n - 1` skipping
the first), transfer `donor.volume * uniform(0.02, 0.06)`, floor the
donor at 5 m³, and recompute the total pressurized volume. -/
def opAdjustZoneVolume (layout : Layout) (r : RandState) : Layout × RandState :=
  let adjIdx := (List.range layout.zones.length).filter (fun i =>
    match layout.zones[i]? with
    | some z => z.name ≠ "Airlock" ∧ z.name ≠ "StormShelter"
    | none => False)
  if adjIdx.length < 2 then (layout, r)
  else
    let (i, r) := indexDraw adjIdx.length r
    let (j0, r) := indexDraw (adjIdx.length - 1) r
    let j := if i ≤ j0 then j0 + 1 else j0
    let di := adjIdx.getD i 0
    let ri := adjIdx.getD j 0
    let donorVol := match layout.zones[di]? with
      | some z => z.volume_m3
      | none => 0
    let (tu, r) := uniformDraw (1/50) (3/50) r
    let transfer := donorVol * tu
    let zones := updateZone layout.zones di
      (fun z => { z with volume_m3 := max (z.volume_m3 - transfer) 5 })
    let zones := updateZone zones ri
      (fun z => { z with volume_m3 := z.volume_m3 + transfer })
    ({ layout with zones := zones, pressurized_volume_m3 := zoneVolumeSum zones }, r)

/-- Neighbor operator `_op_tune_systems`: perturb water recycling,
autonomy days and storage with the source's clamps and `dict.get`
defaults. -/
def opTuneSystems (layout : Layout) (r : RandState) : Layout × RandState :=
  let (dw, r) := uniformDraw (-(1/50)) (3/100) r
  let water := min (99/100) (max (9/10) (layout.systems.water_recycling_rate + dw))
  let autonomy := (layout.systems.power_autonomy_days).getD 14
  let (da, r) := randintDraw (-1) 2 r
  let autonomy := max 14 (autonomy + da)
  let storage := (layout.systems.power_storage_kwh).getD 160
  let (ds, r) := uniformDraw (-10) 15 r
  let storage := max 120 (storage + ds)
  ({ layout with systems :=
      { layout.systems with
        water_recycling_rate := water
        power_autonomy_days := some autonomy
        power_storage_kwh := some storage } }, r)

/-- Neighbor operator `_op_adjust_isru`: perturb the ISRU fraction by
`uniform(-0.05, 0.08)`, clamped to `[0.4, 1.0]`. -/
def opAdjustIsru (layout : Layout) (r : RandState) : Layout × RandState :=
  let (d, r) := uniformDraw (-(1/20)) (2/25) r
  ({ layout with isruFrac := min 1 (max (2/5) (layout.isruFrac + d)) }, r)

/-- Neighbor operator `_op_adjust_privacy`: choose a zone among
{Work, Exercise, GalleyDining} and perturb its acoustic isolation by
`uniform(-0.05, 0.1)`, clamped to `[0.3, 1.0]`. -/
def opAdjustPrivacy (layout : Layout) (r : RandState) : Layout × RandState :=
  let targets := (List.range layout.zones.length).filter (fun i =>
    match layout.zones[i]? with
    | some z => z.name = "Work" ∨ z.name = "Exercise" ∨ z.name = "GalleyDining"
    | none => False)
  if targets = [] then (layout, r)
  else
    let (i, r) := indexDraw targets.length r
    let zi := targets.getD i 0
    let (d, r) := uniformDraw (-(1/20)) (1/10) r
    let zones := updateZone layout.zones zi (fun z =>
      { z with acoustic_isolation := min 1 (max (3/10) (z.acoustic_isolation + d)) })
    ({ layout with zones := zones }, r)

/-- `NEIGHBOR_OPS` with the `__name__` strings used as log reasons. -/
def neighborOps : List ((Layout → RandState → Layout × RandState) × String) :=
  [(opAdjustZoneVolume, "_op_adjust_zone_volume"),
   (opTuneSystems, "_op_tune_systems"),
   (opAdjustIsru, "_op_adjust_isru"),
   (opAdjustPrivacy, "_op_adjust_privacy")]

/-- Mutable state of the annealing loop. -/
structure OptState where
  current : Layout
  currentMetrics : Metrics
  currentScore : ℚ
  best : Layout
  bestMetrics : Metrics
  bestScore : ℚ
  history : List OptimizationLogEntry
  rng : RandState

/-- `seed or int(layout.metadata.get("seed", 42))`: Python's `or`
falls back when the explicit seed is `None` *or* `0` (both falsy). -/
def resolveSeed (seed : Option Int) (metaSeed : Option Int) : Int :=
  match seed with
  | some s => if s = 0 then metaSeed.getD 42 else s
  | none => metaSeed.getD 42

/-- The feasible-candidate part of one annealing iteration: evaluate,
apply the Metropolis criterion (drawing `rng.random()` only when
`delta < 0`, matching Python's short-circuit `or`), update `current`,
update `best` when the accepted score beats it, and log the step. -/
def annealEval (expFn : ℚ → ℕ → ℕ → ℚ) (s : ConstraintSettings)
    (weights : ScoreWeights) (iterations step : ℕ) (st : OptState)
    (candidate : Layout) (opName : String) (rng : RandState) : OptState :=
  let ev := evaluate candidate s weights
  let candidateScore := ev.2
  let delta := candidateScore - st.currentScore
  let accept : Bool :=
    if delta ≥ 0 then true
    else decide (rng.next.1 < expFn delta step iterations)
  let rng2 : RandState := if delta ≥ 0 then rng else rng.next.2
  if accept then
    { current := candidate
      currentMetrics := ev.1
      currentScore := candidateScore
      best := if candidateScore > st.bestScore then candidate else st.best
      bestMetrics := if candidateScore > st.bestScore then ev.1 else st.bestMetrics
      bestScore := if candidateScore > st.bestScore then candidateScore else st.bestScore
      history := st.history ++
        [{ iteration := step, score := candidateScore, accepted := true,
           reason := opName }]
      rng := rng2 }
  else
    { st with
      history := st.history ++
        [{ iteration := step, score := st.currentScore, accepted := false,
           reason := "anneal_reject" }]
      rng := rng2 }

/-- One iteration of the annealing loop (`for step in range(1, iterations+1)`):
mutate a copy of `current` with a uniformly chosen neighbor operator,
reject infeasible candidates outright (logging the failed rule ids), and
otherwise run `annealEval`. -/
def annealStep (expFn : ℚ → ℕ → ℕ → ℚ) (s : ConstraintSettings)
    (weights : ScoreWeights) (iterations : ℕ) (st : OptState) (step : ℕ) : OptState :=
  let draw := indexDraw neighborOps.length st.rng
  let opPair := neighborOps.getD draw.1 (fun l r => (l, r), "")
  let applied := opPair.1 st.current draw.2
  let validation := validateLayout applied.1 s
  if ¬ validation.passed then
    { st with
      history := st.history ++
        [{ iteration := step, score := st.currentScore, accepted := false,
           reason := "constraint_fail:" ++ String.intercalate "," validation.failed_rules }]
      rng := applied.2 }
  else annealEval expFn s weights iterations step st applied.1 opPair.2 applied.2

/-- Run simulated annealing under hard constraints
(`optimizer.optimize_layout`).  `mkDraws` abstracts `random.Random`
(mapping the resolved seed to its draw stream); `expFn` abstracts the
Metropolis exponential. -/
def optimizeLayout (expFn : ℚ → ℕ → ℕ → ℚ) (mkDraws : Int → ℕ → ℚ)
    (layout : Layout) (iterations : ℕ) (s : ConstraintSettings)
    (weights : ScoreWeights) (seed : Option Int) : OptimizationResult :=
  let rng : RandState := ⟨mkDraws (resolveSeed seed layout.meta_seed), 0⟩
  let current := layout
  let ev0 := evaluate current s weights
  let st0 : OptState :=
    { current := current
      currentMetrics := ev0.1
      currentScore := ev0.2
      best := current
      bestMetrics := ev0.1
      bestScore := ev0.2
      history := [{ iteration := 0, score := ev0.2, accepted := true, reason := "initial" }]
      rng := rng }
  let st := (List.range' 1 iterations).foldl (annealStep expFn s weights iterations) st0
  { layout := st.best, metrics := st.bestMetrics, score := st.bestScore,
    history := st.history }

instance instDecEqGenResult : DecidableEq (Except GenError Layout) := fun a b =>
  match a, b with
  | .ok x, .ok y =>
    if h : x = y then isTrue (by rw [h]) else isFalse (fun he => h (Except.ok.inj he))
  | .error x, .error y =>
    if h : x = y then isTrue (by rw [h]) else isFalse (fun he => h (Except.error.inj he))
  | .ok _, .error _ => isFalse (fun he => Except.noConfusion he)
  | .error _, .ok _ => isFalse (fun he => Except.noConfusion he)

/-- Modelled from the spec's words ("adjacency graph is connected",
"a spanning tree"): pairwise reachability of all graph nodes, decided by
the breadth-first closure.  Used only to state claims about connected
graphs; the validator's own rule is `graphRules`. -/
def graphConnected (g : Graph) : Bool :=
  g.keys.all (fun a => g.keys.all (fun b => (bfsLoop g g.fuel [a] []).contains b))

/-! ## Concrete instances used by the claims

Hand-built layouts exercising specific validator behaviors, plus the
configurations from the spec's scenarios. -/

/-- A zone record with the fields the validator inspects spelled out. -/
def sampleZone (n : String) (vol usable : ℚ) (priv : String) (conns : List String)
    (acou : ℚ) (egress : Bool) : Zone :=
  { name := n
    volume_m3 := vol
    usableFrac := usable
    privacy := priv
    connections := conns
    acoustic_isolation := acou
    lighting := "Neutral4000K"
    is_pressurized := true
    is_egress := egress
    equipment := [] }

/-- A feasible eight-zone layout (crew 4, duration 90): every validator
rule passes under `defaultSettings`. -/
def testLayout : Layout :=
  { habitat_name := "t"
    habitat_type := "Rigid"
    pressurized_volume_m3 := 160
    zones :=
      [sampleZone "Airlock" 12 (3/5) "Low" ["MaintenanceStorage", "Work"] (2/5) true,
       sampleZone "Work" 30 (17/20) "Medium"
         ["Airlock", "GalleyDining", "Exercise", "MaintenanceStorage"] (11/20) false,
       sampleZone "HygieneMedical" 15 (4/5) "High" ["CrewQuarters", "StormShelter"] (3/4) false,
       sampleZone "GalleyDining" 19 (17/20) "Medium" ["Work", "CrewQuarters"] (3/5) false,
       sampleZone "CrewQuarters" 34 (9/10) "High"
         ["GalleyDining", "HygieneMedical", "Exercise"] (4/5) false,
       sampleZone "Exercise" 17 (4/5) "Medium" ["CrewQuarters", "Work"] (13/20) false,
       sampleZone "MaintenanceStorage" 17 (3/4) "Low" ["Airlock", "Work", "StormShelter"] (1/2) false,
       sampleZone "StormShelter" 16 (7/10) "High" ["HygieneMedical", "MaintenanceStorage"] (17/20) true]
    systems := genSystems defaultSettings
    shield_equivalent_g_cm2 := 29/5
    isruFrac := 3/5
    docking_ports := 2
    meta_crew := 4
    meta_duration_days := 90
    meta_seed := some 3 }

/-- `testLayout` with the mandatory Exercise zone removed; the other
zones still declare connections to it, so the adjacency graph keeps an
`Exercise` stub node. -/
def testLayoutNoExercise : Layout :=
  { testLayout with zones := testLayout.zones.filter (fun z => z.name ≠ "Exercise") }

/-- Two declared zones, one of which references the undeclared stub
`Work` while `Exercise` is isolated: BFS reaches {Airlock, Work}, which
has the same size as the declared-name set {Airlock, Exercise} although
`Exercise` is unreached. -/
def stubCountLayout : Layout :=
  { habitat_name := "stub"
    habitat_type := "Rigid"
    pressurized_volume_m3 := 100
    zones :=
      [sampleZone "Airlock" 50 (9/10) "High" ["Work"] (4/5) true,
       sampleZone "Exercise" 50 (9/10) "High" [] (4/5) true]
    systems := genSystems defaultSettings
    shield_equivalent_g_cm2 := 6
    isruFrac := 3/5
    docking_ports := 2
    meta_crew := 4
    meta_duration_days := 90
    meta_seed := some 1 }

/-- Two declared zones whose graph (with the stub `Exercise`) is a
connected three-node tree: connected and acyclic, yet the BFS count (3)
differs from the declared-name count (2), so the connectivity rule fails
and the redundant-paths rule is never evaluated. -/
def stubTreeLayout : Layout :=
  { habitat_name := "stubtree"
    habitat_type := "Rigid"
    pressurized_volume_m3 := 100
    zones :=
      [sampleZone "Airlock" 50 (9/10) "High" ["Work", "Exercise"] (4/5) true,
       sampleZone "Work" 50 (9/10) "High" [] (4/5) true]
    systems := genSystems defaultSettings
    shield_equivalent_g_cm2 := 6
    isruFrac := 3/5
    docking_ports := 2
    meta_crew := 4
    meta_duration_days := 90
    meta_seed := some 1 }

/-- A five-zone chain (spanning tree, no stub nodes): the connectivity
rule passes and the redundant-paths rule fails (scenario D shape). -/
def chainLayout : Layout :=
  { habitat_name := "chain"
    habitat_type := "Rigid"
    pressurized_volume_m3 := 250
    zones :=
      [sampleZone "Airlock" 50 (9/10) "High" ["Work"] (4/5) true,
       sampleZone "Work" 50 (9/10) "High" ["Airlock", "CrewQuarters"] (4/5) true,
       sampleZone "CrewQuarters" 50 (9/10) "High" ["Work", "HygieneMedical"] (4/5) true,
       sampleZone "HygieneMedical" 50 (9/10) "High" ["CrewQuarters", "StormShelter"] (4/5) true,
       sampleZone "StormShelter" 50 (9/10) "High" ["HygieneMedical"] (4/5) true]
    systems := genSystems defaultSettings
    shield_equivalent_g_cm2 := 6
    isruFrac := 3/5
    docking_ports := 2
    meta_crew := 4
    meta_duration_days := 90
    meta_seed := some 1 }

/-- The draw stream whose every uniform draw is `1/2`, i.e. every
`rng.uniform(-0.05, 0.05)` jitter is exactly `0`. -/
def uHalf : ℕ → ℚ := fun _ => 1/2

/-- Scenario A configuration: crew 4, duration 90, Inflatable, 170 m³,
ISRU target 0.6, 2 docking ports, seed 7. -/
def cfgScenarioA : GenConfig :=
  { crew := 4
    duration_days := 90
    habitat_type := "Inflatable"
    pressurized_volume_m3 := 170
    targetIsruFrac := 3/5
    docking_ports := 2
    seed := 7 }

/-- In-range crew but a mission duration (500 days) far outside
`[30, 180]`; the generator performs no duration bounds check. -/
def cfgLongDuration : GenConfig :=
  { crew := 4, duration_days := 500 }

/-- In-range crew, out-of-range duration *and* a pressurized volume (100
m³) too small for the crew-4 NHV requirement: the first validation fails
on `duration_range` and `nhv_per_crew` together. -/
def cfgLongDurationSmall : GenConfig :=
  { crew := 4, duration_days := 500, pressurized_volume_m3 := 100 }

/-! ## Scenario A scaffolding (generator claim)

The zone list and layout produced by `build_initial` for the Scenario A
configuration, with the renormalized volumes abstracted as a stream `v`,
plus name-level refactorings of the two rules whose evaluation depends on
the layout only through its zone names. -/

def scenarioZones (v : ℕ → ℚ) : List Zone :=
  [{ name := "Airlock", volume_m3 := v 0, usableFrac := 3/5, privacy := "Low",
     connections := ["MaintenanceStorage", "Work"], acoustic_isolation := 2/5,
     lighting := "Neutral4000K", is_pressurized := true, is_egress := true,
     equipment := ["dual-door", "suit-lock", "dust-scrubber"] },
   { name := "Work", volume_m3 := v 1, usableFrac := 17/20, privacy := "Medium",
     connections := ["Airlock", "GalleyDining", "Exercise", "MaintenanceStorage"],
     acoustic_isolation := 11/20, lighting := "Neutral4000K", is_pressurized := true,
     is_egress := false, equipment := ["lab-bench", "fab-station"] },
   { name := "HygieneMedical", volume_m3 := v 2, usableFrac := 4/5, privacy := "High",
     connections := ["CrewQuarters", "StormShelter"], acoustic_isolation := 3/4,
     lighting := "Neutral4000K", is_pressurized := true, is_egress := false,
     equipment := ["med-kit", "hygiene-module"] },
   { name := "GalleyDining", volume_m3 := v 3, usableFrac := 17/20, privacy := "Medium",
     connections := ["Work", "CrewQuarters", "Agriculture"], acoustic_isolation := 3/5,
     lighting := "Adaptive", is_pressurized := true, is_egress := false,
     equipment := ["galley", "table"] },
   { name := "CrewQuarters", volume_m3 := v 4, usableFrac := 9/10, privacy := "High",
     connections := ["GalleyDining", "HygieneMedical", "Exercise"],
     acoustic_isolation := 4/5, lighting := "Adaptive", is_pressurized := true,
     is_egress := false, equipment := ["pods", "privacy-panels"] },
   { name := "Exercise", volume_m3 := v 5, usableFrac := 4/5, privacy := "Medium",
     connections := ["CrewQuarters", "Work"], acoustic_isolation := 13/20,
     lighting := "Neutral4000K", is_pressurized := true, is_egress := false,
     equipment := ["treadmill", "flywheel"] },
   { name := "MaintenanceStorage", volume_m3 := v 6, usableFrac := 3/4, privacy := "Low",
     connections := ["Airlock", "Work", "StormShelter", "Agriculture"],
     acoustic_isolation := 1/2, lighting := "Neutral4000K", is_pressurized := true,
     is_egress := false, equipment := ["tool-racks", "spares"] },
   { name := "StormShelter", volume_m3 := v 7, usableFrac := 7/10, privacy := "High",
     connections := ["HygieneMedical", "MaintenanceStorage"], acoustic_isolation := 17/20,
     lighting := "Neutral4000K", is_pressurized := true, is_egress := true,
     equipment := ["shielded-bunks", "backup-comms"] },
   { name := "Agriculture", volume_m3 := v 8, usableFrac := 17/20, privacy := "Medium",
     connections := ["GalleyDining", "MaintenanceStorage"], acoustic_isolation := 3/5,
     lighting := "Neutral4000K", is_pressurized := true, is_egress := false,
     equipment := ["hydroponics", "algae"] }]

def scenarioALayout (v : ℕ → ℚ) : Layout :=
  { habitat_name := "Helios-Init"
    habitat_type := "Inflatable"
    pressurized_volume_m3 := 170
    zones := scenarioZones v
    systems := genSystems defaultSettings
    shield_equivalent_g_cm2 := 29/5
    isruFrac := 3/5
    docking_ports := 2
    meta_crew := 4
    meta_duration_days := 90
    meta_seed := some 7 }

example (v : ℕ → ℚ) : crewRule (scenarioALayout v).meta_crew defaultSettings = [] := rfl
def stormRuleNames (shelter : Option String) (names : List String) (g : Graph)
    (s : ConstraintSettings) : List String :=
  match shelter with
  | some sh =>
    if g ≠ [] then
      if names.any (fun n =>
          let dist := stormDistance g n sh
          dist = -1 ∨ dist > s.max_storm_shelter_hops) then
        ["storm_shelter_access"]
      else []
    else ["storm_shelter_access"]
  | none => ["storm_shelter_access"]

def requiredRuleNames (names : List String) (s : ConstraintSettings) : List String :=
  if (s.required_zones.filter
      (fun z => ¬ (List.foldl setInsert [] names).contains z)) ≠ [] then
    ["required_zones"]
  else []


/-! ## Failed-rule membership lemmas

Each rule block emits at most one fixed identifier (adjacency pairs emit
`adjacency_`-prefixed ones), so membership of a given id in the
accumulated `failed_rules` list is equivalent to that id's own rule
condition. -/

lemma mem_ite_single_iff {c : Prop} [Decidable c] {a x : String} :
    (x ∈ if c then [a] else ([] : List String)) ↔ c ∧ x = a := by
  split <;> simp_all

lemma adjacency_ne_connectivity (a b : String) :
    "adjacency_" ++ a ++ "_" ++ b ≠ "connectivity" := by
  intro h
  have h2 := congrArg String.data h
  simp [String.data_append] at h2

lemma adjacency_ne_redundant (a b : String) :
    "adjacency_" ++ a ++ "_" ++ b ≠ "redundant_paths" := by
  intro h
  have h2 := congrArg String.data h
  simp [String.data_append] at h2

lemma mem_adjacencyFold {x : String} {g : Graph} (l : List (String × String))
    (acc : List String)
    (h : x ∈ List.foldl
      (fun acc p =>
        if g.hasKey p.1 ∧ (g.get p.1).contains p.2 then acc
        else acc ++ ["adjacency_" ++ p.1 ++ "_" ++ p.2]) acc l) :
    x ∈ acc ∨ ∃ a b, x = "adjacency_" ++ a ++ "_" ++ b := by
  induction l generalizing acc with
  | nil => exact .inl h
  | cons p t ih =>
    simp only [List.foldl_cons] at h
    rcases ih _ h with h' | h'
    · split at h'
      · exact .inl h'
      · rcases List.mem_append.mp h' with h'' | h''
        · exact .inl h''
        · exact .inr ⟨p.1, p.2, by simpa using h''⟩
    · exact .inr h'

lemma mem_adjacencyRule {x : String} {g : Graph} {s : ConstraintSettings}
    (h : x ∈ adjacencyRule g s) : ∃ a b, x = "adjacency_" ++ a ++ "_" ++ b := by
  rcases mem_adjacencyFold s.adjacency_pairs [] h with h' | h'
  · simp at h'
  · exact h'

lemma connectivity_not_mem_adjacencyRule {g : Graph} {s : ConstraintSettings} :
    ("connectivity" ∈ adjacencyRule g s) ↔ False := by
  simp only [iff_false]
  intro h
  rcases mem_adjacencyRule h with ⟨a, b, e⟩
  exact adjacency_ne_connectivity a b e.symm

lemma redundant_not_mem_adjacencyRule {g : Graph} {s : ConstraintSettings} :
    ("redundant_paths" ∈ adjacencyRule g s) ↔ False := by
  simp only [iff_false]
  intro h
  rcases mem_adjacencyRule h with ⟨a, b, e⟩
  exact adjacency_ne_redundant a b e.symm

lemma mem_stormRule {x : String} {L : Layout} {g : Graph} {s : ConstraintSettings}
    (h : x ∈ stormRule L g s) : x = "storm_shelter_access" := by
  unfold stormRule at h
  split at h
  · split at h
    · split at h <;> simp_all
    · simp_all
  · simp_all

lemma mem_privacyRule {x : String} {L : Layout} {s : ConstraintSettings}
    (h : x ∈ privacyRule L s) : x = "crew_privacy" := by
  unfold privacyRule at h
  split at h
  · simp_all
  · split at h <;> simp_all

lemma connectivity_not_mem_stormRule {L : Layout} {g : Graph} {s : ConstraintSettings} :
    ("connectivity" ∈ stormRule L g s) ↔ False := by
  simp only [iff_false]
  intro h
  simpa using mem_stormRule h

lemma redundant_not_mem_stormRule {L : Layout} {g : Graph} {s : ConstraintSettings} :
    ("redundant_paths" ∈ stormRule L g s) ↔ False := by
  simp only [iff_false]
  intro h
  simpa using mem_stormRule h

lemma connectivity_not_mem_privacyRule {L : Layout} {s : ConstraintSettings} :
    ("connectivity" ∈ privacyRule L s) ↔ False := by
  simp only [iff_false]
  intro h
  simpa using mem_privacyRule h

lemma redundant_not_mem_privacyRule {L : Layout} {s : ConstraintSettings} :
    ("redundant_paths" ∈ privacyRule L s) ↔ False := by
  simp only [iff_false]
  intro h
  simpa using mem_privacyRule h

lemma connectivity_mem_graphRules {g : Graph} {n : ℕ} :
    "connectivity" ∈ graphRules g n ↔
      (g = [] ∨ (connectivitySeen g).length ≠ n) := by
  unfold graphRules
  cases g with
  | nil => simp
  | cons p t => simp [mem_ite_single_iff, List.mem_append]

lemma redundant_mem_graphRules {g : Graph} {n : ℕ} :
    "redundant_paths" ∈ graphRules g n ↔
      (g ≠ [] ∧ hasCycle g = false ∧ (connectivitySeen g).length = n) := by
  unfold graphRules
  cases g with
  | nil => simp
  | cons p t =>
    simp only [List.mem_append, mem_ite_single_iff]
    by_cases hc : (connectivitySeen (p :: t)).length = n <;> simp_all

lemma connectivity_mem_failedRules (L : Layout) (s : ConstraintSettings) :
    "connectivity" ∈ failedRules L s ↔
      (buildAdjacency L = [] ∨
        (connectivitySeen (buildAdjacency L)).length ≠ (zoneNameSet L).length) := by
  simp only [failedRules, List.mem_append, crewRule, durationRule, requiredRule,
    nhvRule, nhvEffRule, shieldRule, eclssRule, waterRule, autonomyRule, dustRule,
    egressRule, mem_ite_single_iff, connectivity_mem_graphRules,
    connectivity_not_mem_adjacencyRule, connectivity_not_mem_stormRule,
    connectivity_not_mem_privacyRule]
  simp

lemma redundant_mem_failedRules (L : Layout) (s : ConstraintSettings) :
    "redundant_paths" ∈ failedRules L s ↔
      (buildAdjacency L ≠ [] ∧ hasCycle (buildAdjacency L) = false ∧
        (connectivitySeen (buildAdjacency L)).length = (zoneNameSet L).length) := by
  simp only [failedRules, List.mem_append, crewRule, durationRule, requiredRule,
    nhvRule, nhvEffRule, shieldRule, eclssRule, waterRule, autonomyRule, dustRule,
    egressRule, mem_ite_single_iff, redundant_mem_graphRules,
    redundant_not_mem_adjacencyRule, redundant_not_mem_stormRule,
    redundant_not_mem_privacyRule]
  simp

lemma mem_not_passed {x : String} {L : Layout} {s : ConstraintSettings}
    (h : x ∈ (validateLayout L s).failed_rules) :
    (validateLayout L s).passed = false := by
  unfold validateLayout at h ⊢
  cases hf : failedRules L s with
  | nil => rw [hf] at h; simp at h
  | cons a l => simp [hf]

lemma duration_mem_failedRules (L : Layout) (s : ConstraintSettings)
    (h : ¬ (s.min_duration_days ≤ L.meta_duration_days ∧
      L.meta_duration_days ≤ s.max_duration_days)) :
    "duration_range" ∈ failedRules L s := by
  simp only [failedRules, List.mem_append, durationRule, mem_ite_single_iff]
  tauto

lemma required_mem_failedRules (L : Layout) (s : ConstraintSettings) (z : String)
    (hz : z ∈ s.required_zones) (habs : (zoneNameSet L).contains z = false) :
    "required_zones" ∈ failedRules L s := by
  simp only [failedRules, List.mem_append, requiredRule, mem_ite_single_iff]
  have hne : (s.required_zones.filter (fun y => ¬ (zoneNameSet L).contains y)) ≠ [] := by
    intro h0
    have hmem : z ∈ s.required_zones.filter (fun y => ¬ (zoneNameSet L).contains y) :=
      List.mem_filter.mpr ⟨hz, by rw [habs]; decide⟩
    rw [h0] at hmem
    simp at hmem
  tauto

/-! ## Generator closure lemmas -/

lemma foldl_add_shift (f : Zone → ℚ) :
    ∀ (zs : List Zone) (a : ℚ),
      List.foldl (fun acc z => acc + f z) a zs =
        a + List.foldl (fun acc z => acc + f z) 0 zs := by
  intro zs
  induction zs with
  | nil => intro a; simp
  | cons z t ih =>
    intro a
    simp only [List.foldl_cons]
    rw [ih (a + f z), ih (0 + f z)]
    ring

lemma zoneVolumeSum_cons (z : Zone) (t : List Zone) :
    zoneVolumeSum (z :: t) = z.volume_m3 + zoneVolumeSum t := by
  unfold zoneVolumeSum
  simp only [List.foldl_cons]
  rw [foldl_add_shift (fun z => z.volume_m3) t (0 + z.volume_m3)]
  ring

lemma zoneVolumeSum_scale (zs : List Zone) (c : ℚ) :
    zoneVolumeSum (zs.map (fun z => { z with volume_m3 := z.volume_m3 * c })) =
      zoneVolumeSum zs * c := by
  induction zs with
  | nil => simp [zoneVolumeSum]
  | cons z t ih =>
    simp only [List.map_cons, zoneVolumeSum_cons]
    rw [ih]
    ring

lemma zoneVolumeSum_lower (zs : List Zone) (h : ∀ z ∈ zs, (5:ℚ) ≤ z.volume_m3) :
    5 * (zs.length : ℚ) ≤ zoneVolumeSum zs := by
  induction zs with
  | nil => simp [zoneVolumeSum]
  | cons z t ih =>
    rw [zoneVolumeSum_cons, List.length_cons]
    push_cast
    have h1 := h z (List.mem_cons_self z t)
    have h2 := ih (fun x hx => h x (List.mem_cons_of_mem _ hx))
    linarith

lemma exists_of_mem_zipWith {α β γ : Type} {f : α → β → γ} :
    ∀ {l1 : List α} {l2 : List β} {x : γ}, x ∈ List.zipWith f l1 l2 →
      ∃ a b, a ∈ l1 ∧ b ∈ l2 ∧ x = f a b := by
  intro l1
  induction l1 with
  | nil => intro l2 x h; simp at h
  | cons a t ih =>
    intro l2 x h
    cases l2 with
    | nil => simp at h
    | cons b t2 =>
      simp only [List.zipWith_cons_cons] at h
      rcases List.mem_cons.mp h with h | h
      · exact ⟨a, b, List.mem_cons_self a t, List.mem_cons_self b t2, h⟩
      · rcases ih h with ⟨a', b', ha, hb, he⟩
        exact ⟨a', b', List.mem_cons_of_mem _ ha, List.mem_cons_of_mem _ hb, he⟩

lemma jitteredZones_volume_lower (config : GenConfig) (u : ℕ → ℚ) :
    ∀ z ∈ jitteredZones config u, (5:ℚ) ≤ z.volume_m3 := by
  intro z hz
  unfold jitteredZones at hz
  dsimp only at hz
  rcases exists_of_mem_zipWith hz with ⟨a, i, _, _, he⟩
  rw [he]
  exact le_max_right _ _

lemma jitteredZones_total_pos (config : GenConfig) (u : ℕ → ℚ) :
    0 < zoneVolumeSum (jitteredZones config u) := by
  have hl := zoneVolumeSum_lower _ (jitteredZones_volume_lower config u)
  have hlen : (jitteredZones config u).length = 9 := rfl
  rw [hlen] at hl
  norm_num at hl
  linarith

lemma buildInitial_closure (config : GenConfig) (u : ℕ → ℚ) (s : ConstraintSettings) :
    zoneVolumeSum (buildInitial config u s).zones =
      (buildInitial config u s).pressurized_volume_m3 := by
  have hne : zoneVolumeSum (jitteredZones config u) ≠ 0 :=
    ne_of_gt (jitteredZones_total_pos config u)
  unfold buildInitial
  dsimp only
  rw [if_pos hne, zoneVolumeSum_scale, mul_comm, div_mul_cancel₀ _ hne]

lemma healPass_closure (sqrtFn : ℚ → ℚ) (L : Layout) (s : ConstraintSettings) :
    zoneVolumeSum (healPass sqrtFn L s).zones =
      (healPass sqrtFn L s).pressurized_volume_m3 := rfl

/-! ## Optimizer loop invariant (for the best-tracking claim) -/

/-- Invariant of the annealing loop: the best score never drops below
the initial score, the best layout is the input or a validated
candidate, and the first history entry stays the iteration-0 record. -/
def optInvariant (init : Layout) (initScore : ℚ) (s : ConstraintSettings)
    (st : OptState) : Prop :=
  initScore ≤ st.bestScore ∧
    (st.best = init ∨ (validateLayout st.best s).passed = true) ∧
    st.history.head? =
      some { iteration := 0, score := initScore, accepted := true, reason := "initial" }

lemma head?_append_of_ne_nil {α} {l t : List α} {a : α} (h : l.head? = some a) :
    (l ++ t).head? = some a := by
  cases l with
  | nil => simp at h
  | cons x xs => simpa using h

lemma annealEval_invariant {expFn : ℚ → ℕ → ℕ → ℚ} {s : ConstraintSettings}
    {weights : ScoreWeights} {iterations step : ℕ} {init : Layout} {initScore : ℚ}
    {st : OptState} {candidate : Layout} {opName : String} {rng : RandState}
    (hv : (validateLayout candidate s).passed = true)
    (h : optInvariant init initScore s st) :
    optInvariant init initScore s
      (annealEval expFn s weights iterations step st candidate opName rng) := by
  obtain ⟨h1, h2, h3⟩ := h
  have hacc : ∀ rng2 : RandState, optInvariant init initScore s
      { current := candidate
        currentMetrics := (evaluate candidate s weights).1
        currentScore := (evaluate candidate s weights).2
        best := if (evaluate candidate s weights).2 > st.bestScore then candidate
          else st.best
        bestMetrics := if (evaluate candidate s weights).2 > st.bestScore then
            (evaluate candidate s weights).1
          else st.bestMetrics
        bestScore := if (evaluate candidate s weights).2 > st.bestScore then
            (evaluate candidate s weights).2
          else st.bestScore
        history := st.history ++
          [{ iteration := step, score := (evaluate candidate s weights).2,
             accepted := true, reason := opName }]
        rng := rng2 } := by
    intro rng2
    refine ⟨?_, ?_, head?_append_of_ne_nil h3⟩
    · dsimp only
      split
      · next hgt => exact le_of_lt (lt_of_le_of_lt h1 hgt)
      · exact h1
    · dsimp only
      split
      · exact Or.inr hv
      · exact h2
  have hrej : ∀ rng2 : RandState, optInvariant init initScore s
      { st with
        history := st.history ++
          [{ iteration := step, score := st.currentScore, accepted := false,
             reason := "anneal_reject" }]
        rng := rng2 } := fun rng2 => ⟨h1, h2, head?_append_of_ne_nil h3⟩
  unfold annealEval
  dsimp only
  split
  · exact hacc _
  · split
    · exact hacc _
    · exact hrej _

lemma annealStep_invariant {expFn : ℚ → ℕ → ℕ → ℚ} {s : ConstraintSettings}
    {weights : ScoreWeights} {iterations : ℕ} {init : Layout} {initScore : ℚ}
    {st : OptState} (step : ℕ) (h : optInvariant init initScore s st) :
    optInvariant init initScore s (annealStep expFn s weights iterations st step) := by
  unfold annealStep
  dsimp only
  split
  · obtain ⟨h1, h2, h3⟩ := h
    exact ⟨h1, h2, head?_append_of_ne_nil h3⟩
  · next hv =>
    exact annealEval_invariant (by simpa using hv) h

lemma foldl_invariant {α β : Type} {f : β → α → β} {P : β → Prop}
    (hf : ∀ st x, P st → P (f st x)) :
    ∀ (l : List α) (st : β), P st → P (l.foldl f st) := by
  intro l
  induction l with
  | nil => intro st h; exact h
  | cons x xs ih => intro st h; exact ih _ (hf st x h)

lemma optInvariant_init (init : Layout) (sc : ℚ) (m : Metrics)
    (s : ConstraintSettings) (rng : RandState) :
    optInvariant init sc s
      { current := init, currentMetrics := m, currentScore := sc, best := init,
        bestMetrics := m, bestScore := sc,
        history := [{ iteration := 0, score := sc, accepted := true, reason := "initial" }],
        rng := rng } :=
  ⟨le_refl _, Or.inl rfl, rfl⟩

/-! ## Scenario A lemmas (generator claim) -/

lemma any_map_name (zs : List Zone) (p : String → Bool) :
    (zs.map (fun z => z.name)).any p = zs.any (fun z => p z.name) := by
  induction zs with
  | nil => rfl
  | cons z t ih => simp only [List.map_cons, List.any_cons, ih]

lemma stormRule_eq_names (L : Layout) (g : Graph) (s : ConstraintSettings) :
    stormRule L g s =
      stormRuleNames ((zoneByName L "StormShelter").map (fun z => z.name))
        (L.zones.map (fun z => z.name)) g s := by
  unfold stormRule stormRuleNames
  cases hz : zoneByName L "StormShelter" with
  | none => rfl
  | some q =>
    simp only [Option.map]
    rw [any_map_name]

lemma jv_bounds (b x : ℚ) (hb : 6 ≤ b) (h0 : 0 ≤ x) (h1 : x ≤ 1) :
    (19/20) * b ≤ jitteredVolume b x ∧ jitteredVolume b x ≤ (21/20) * b := by
  unfold jitteredVolume
  have h5 : (5:ℚ) ≤ b * (1 + (-(1/20) + (1/10) * x)) := by nlinarith
  rw [max_eq_left h5]
  constructor <;> nlinarith

lemma crewRule_scenA (v : ℕ → ℚ) :
    crewRule (scenarioALayout v).meta_crew defaultSettings = [] := rfl

lemma durRule_scenA (v : ℕ → ℚ) :
    durationRule (scenarioALayout v).meta_duration_days defaultSettings = [] := rfl

lemma shieldRule_scenA (v : ℕ → ℚ) :
    shieldRule (scenarioALayout v) defaultSettings = [] := rfl

lemma eclssRule_scenA (v : ℕ → ℚ) :
    eclssRule (scenarioALayout v) defaultSettings = [] := rfl

lemma waterRule_scenA (v : ℕ → ℚ) :
    waterRule (scenarioALayout v) defaultSettings = [] := rfl

lemma autoRule_scenA (v : ℕ → ℚ) :
    autonomyRule (scenarioALayout v) defaultSettings = [] := rfl

lemma dustRule_scenA (v : ℕ → ℚ) : dustRule (scenarioALayout v) = [] := rfl

lemma egressRule_scenA (v : ℕ → ℚ) : egressRule (scenarioALayout v) = [] := rfl

lemma privacyRule_scenA (v : ℕ → ℚ) :
    privacyRule (scenarioALayout v) defaultSettings = [] := rfl

lemma adjBuild_scenA (v : ℕ → ℚ) :
    buildAdjacency (scenarioALayout v) = buildAdjacency (scenarioALayout (fun _ => 0)) :=
  rfl

lemma nameSetLen_scenA (v : ℕ → ℚ) : (zoneNameSet (scenarioALayout v)).length = 9 := rfl

lemma namesMap_scenA (v : ℕ → ℚ) :
    (scenarioALayout v).zones.map (fun z => z.name) =
      ["Airlock", "Work", "HygieneMedical", "GalleyDining", "CrewQuarters", "Exercise",
       "MaintenanceStorage", "StormShelter", "Agriculture"] := rfl

lemma requiredRule_eq_names (L : Layout) (s : ConstraintSettings) :
    requiredRule L s = requiredRuleNames (L.zones.map (fun z => z.name)) s := rfl

lemma reqRule_scenA (v : ℕ → ℚ) :
    requiredRule (scenarioALayout v) defaultSettings = [] := by
  rw [requiredRule_eq_names, namesMap_scenA]
  decide

lemma shelterName_scenA (v : ℕ → ℚ) :
    (zoneByName (scenarioALayout v) "StormShelter").map (fun z => z.name) =
      some "StormShelter" := rfl

lemma pv_scenA (v : ℕ → ℚ) :
    (scenarioALayout v).pressurized_volume_m3 = (170:ℚ) := rfl

lemma crew_scenA (v : ℕ → ℚ) : (scenarioALayout v).meta_crew = (4:ℤ) := rfl

lemma graphRules_scenA :
    graphRules (buildAdjacency (scenarioALayout (fun _ => 0))) 9 = [] := by
  decide

lemma adjacencyRule_scenA :
    adjacencyRule (buildAdjacency (scenarioALayout (fun _ => 0))) defaultSettings = [] := by
  decide

lemma stormRule_scenA (v : ℕ → ℚ) :
    stormRule (scenarioALayout v) (buildAdjacency (scenarioALayout (fun _ => 0)))
      defaultSettings = [] := by
  rw [stormRule_eq_names, shelterName_scenA, namesMap_scenA]
  decide

lemma nhvRule_scenA (v : ℕ → ℚ) (h : 119 ≤ nhv (scenarioALayout v)) :
    nhvRule (nhv (scenarioALayout v)) (scenarioALayout v).meta_crew defaultSettings =
      [] := by
  have hc : ¬ (nhv (scenarioALayout v) <
      ((scenarioALayout v).meta_crew : ℚ) * defaultSettings.min_nhv_per_person) := by
    rw [not_lt, crew_scenA, show defaultSettings.min_nhv_per_person = (25:ℚ) from rfl]
    push_cast
    linarith
  unfold nhvRule
  rw [if_neg hc]

lemma nhvEffRule_scenA (v : ℕ → ℚ) (h : 119 ≤ nhv (scenarioALayout v)) :
    nhvEffRule (nhv (scenarioALayout v) / 170) defaultSettings = [] := by
  have hc : ¬ (nhv (scenarioALayout v) / 170 < defaultSettings.min_nhv_efficiency) := by
    rw [not_lt, show defaultSettings.min_nhv_efficiency = (7/10:ℚ) from rfl,
      le_div_iff₀ (by norm_num : (0:ℚ) < 170)]
    linarith
  unfold nhvEffRule
  rw [if_neg hc]

lemma failedRules_scenA (v : ℕ → ℚ) (h : 119 ≤ nhv (scenarioALayout v)) :
    failedRules (scenarioALayout v) defaultSettings = [] := by
  unfold failedRules
  dsimp only
  rw [pv_scenA, if_pos (by norm_num : (170:ℚ) ≠ 0)]
  rw [adjBuild_scenA, nameSetLen_scenA]
  rw [crewRule_scenA, durRule_scenA, reqRule_scenA, nhvRule_scenA v h,
    nhvEffRule_scenA v h, shieldRule_scenA, eclssRule_scenA, waterRule_scenA,
    autoRule_scenA, dustRule_scenA, graphRules_scenA, adjacencyRule_scenA,
    egressRule_scenA, stormRule_scenA, privacyRule_scenA]
  rfl

lemma scenarioA_failed_empty (u : ℕ → ℚ) (hu : ∀ i, 0 ≤ u i ∧ u i ≤ 1) :
    failedRules (buildInitial cfgScenarioA u defaultSettings) defaultSettings = [] := by
  have hjz : jitteredZones cfgScenarioA u =
      scenarioZones (fun i =>
        jitteredVolume (([119/10, 153/5, 153/10, 187/10, 34, 17, 17, 119/10, 68/5] :
          List ℚ).getD i 0) (u i)) := rfl
  have hsum : ∀ w : ℕ → ℚ, zoneVolumeSum (scenarioZones w) =
      0 + w 0 + w 1 + w 2 + w 3 + w 4 + w 5 + w 6 + w 7 + w 8 := fun w => rfl
  have hscale : ∀ (w : ℕ → ℚ) (c : ℚ),
      (scenarioZones w).map (fun z => { z with volume_m3 := z.volume_m3 * c }) =
        scenarioZones (fun i => w i * c) := fun w c => rfl
  set w : ℕ → ℚ := fun i =>
    jitteredVolume (([119/10, 153/5, 153/10, 187/10, 34, 17, 17, 119/10, 68/5] :
      List ℚ).getD i 0) (u i) with hw
  have hw0 := jv_bounds (119/10) (u 0) (by norm_num) (hu 0).1 (hu 0).2
  have hw1 := jv_bounds (153/5) (u 1) (by norm_num) (hu 1).1 (hu 1).2
  have hw2 := jv_bounds (153/10) (u 2) (by norm_num) (hu 2).1 (hu 2).2
  have hw3 := jv_bounds (187/10) (u 3) (by norm_num) (hu 3).1 (hu 3).2
  have hw4 := jv_bounds 34 (u 4) (by norm_num) (hu 4).1 (hu 4).2
  have hw5 := jv_bounds 17 (u 5) (by norm_num) (hu 5).1 (hu 5).2
  have hw6 := jv_bounds 17 (u 6) (by norm_num) (hu 6).1 (hu 6).2
  have hw7 := jv_bounds (119/10) (u 7) (by norm_num) (hu 7).1 (hu 7).2
  have hw8 := jv_bounds (68/5) (u 8) (by norm_num) (hu 8).1 (hu 8).2
  have he0 : w 0 = jitteredVolume (119/10) (u 0) := rfl
  have he1 : w 1 = jitteredVolume (153/5) (u 1) := rfl
  have he2 : w 2 = jitteredVolume (153/10) (u 2) := rfl
  have he3 : w 3 = jitteredVolume (187/10) (u 3) := rfl
  have he4 : w 4 = jitteredVolume 34 (u 4) := rfl
  have he5 : w 5 = jitteredVolume 17 (u 5) := rfl
  have he6 : w 6 = jitteredVolume 17 (u 6) := rfl
  have he7 : w 7 = jitteredVolume (119/10) (u 7) := rfl
  have he8 : w 8 = jitteredVolume (68/5) (u 8) := rfl
  have hT : zoneVolumeSum (scenarioZones w) =
      0 + w 0 + w 1 + w 2 + w 3 + w 4 + w 5 + w 6 + w 7 + w 8 := hsum w
  rw [he0, he1, he2, he3, he4, he5, he6, he7, he8] at hT
  have hTlow : (323/2 : ℚ) ≤ zoneVolumeSum (scenarioZones w) := by
    rw [hT]
    linarith [hw0.1, hw1.1, hw2.1, hw3.1, hw4.1, hw5.1, hw6.1, hw7.1, hw8.1]
  have hThigh : zoneVolumeSum (scenarioZones w) ≤ (357/2 : ℚ) := by
    rw [hT]
    linarith [hw0.2, hw1.2, hw2.2, hw3.2, hw4.2, hw5.2, hw6.2, hw7.2, hw8.2]
  have hTpos : (0:ℚ) < zoneVolumeSum (scenarioZones w) := by linarith
  have hTne : zoneVolumeSum (scenarioZones w) ≠ 0 := ne_of_gt hTpos
  have hL : buildInitial cfgScenarioA u defaultSettings =
      scenarioALayout (fun i => w i * (170 / zoneVolumeSum (scenarioZones w))) := by
    unfold buildInitial scenarioALayout
    dsimp only
    rw [hjz, if_pos hTne, hscale]
    rfl
  have hnhv : ∀ v : ℕ → ℚ, nhv (scenarioALayout v) =
      0 + v 0 * (3/5) + v 1 * (17/20) + v 2 * (4/5) + v 3 * (17/20) + v 4 * (9/10) +
        v 5 * (4/5) + v 6 * (3/4) + v 7 * (7/10) + v 8 * (17/20) := fun v => rfl
  have hS : (4199/32 : ℚ) ≤
      0 + w 0 * (3/5) + w 1 * (17/20) + w 2 * (4/5) + w 3 * (17/20) + w 4 * (9/10) +
        w 5 * (4/5) + w 6 * (3/4) + w 7 * (7/10) + w 8 * (17/20) := by
    rw [he0, he1, he2, he3, he4, he5, he6, he7, he8]
    linarith [hw0.1, hw1.1, hw2.1, hw3.1, hw4.1, hw5.1, hw6.1, hw7.1, hw8.1]
  have hnhv119 : 119 ≤
      nhv (scenarioALayout (fun i => w i * (170 / zoneVolumeSum (scenarioZones w)))) := by
    rw [hnhv]
    have hre : 0 + (w 0 * (170 / zoneVolumeSum (scenarioZones w))) * (3/5) +
        (w 1 * (170 / zoneVolumeSum (scenarioZones w))) * (17/20) +
        (w 2 * (170 / zoneVolumeSum (scenarioZones w))) * (4/5) +
        (w 3 * (170 / zoneVolumeSum (scenarioZones w))) * (17/20) +
        (w 4 * (170 / zoneVolumeSum (scenarioZones w))) * (9/10) +
        (w 5 * (170 / zoneVolumeSum (scenarioZones w))) * (4/5) +
        (w 6 * (170 / zoneVolumeSum (scenarioZones w))) * (3/4) +
        (w 7 * (170 / zoneVolumeSum (scenarioZones w))) * (7/10) +
        (w 8 * (170 / zoneVolumeSum (scenarioZones w))) * (17/20) =
        ((0 + w 0 * (3/5) + w 1 * (17/20) + w 2 * (4/5) + w 3 * (17/20) + w 4 * (9/10) +
          w 5 * (4/5) + w 6 * (3/4) + w 7 * (7/10) + w 8 * (17/20)) * 170) /
          zoneVolumeSum (scenarioZones w) := by
      field_simp
      ring
    show (119:ℚ) ≤ _
    rw [hre]
    rw [le_div_iff₀ hTpos]
    nlinarith [hS, hThigh]
  rw [hL]
  exact failedRules_scenA _ hnhv119
/-! ## Claim theorems -/

/-- C1.  Monotonic best-tracking: for every optimization run, the first
history entry is the iteration-0 evaluation of the input layout, the
returned best score is at least that initial score, and the returned
best layout is either the input layout itself or a layout that passed
validation in the iteration that installed it (so best is never updated
from an infeasible candidate). -/
theorem optimize_best_monotone (expFn : ℚ → ℕ → ℕ → ℚ) (mkDraws : Int → ℕ → ℚ)
    (layout : Layout) (iterations : ℕ) (s : ConstraintSettings)
    (weights : ScoreWeights) (seed : Option Int) :
    (optimizeLayout expFn mkDraws layout iterations s weights seed).history.head? =
      some { iteration := 0, score := (evaluate layout s weights).2, accepted := true,
             reason := "initial" } ∧
    (evaluate layout s weights).2 ≤
      (optimizeLayout expFn mkDraws layout iterations s weights seed).score ∧
    ((optimizeLayout expFn mkDraws layout iterations s weights seed).layout = layout ∨
      (validateLayout (optimizeLayout expFn mkDraws layout iterations s weights seed).layout
        s).passed = true) := by
  unfold optimizeLayout
  dsimp only
  have key := @foldl_invariant ℕ OptState (annealStep expFn s weights iterations)
    (optInvariant layout (evaluate layout s weights).2 s)
    (fun st x h => annealStep_invariant x h)
    (List.range' 1 iterations)
    { current := layout
      currentMetrics := (evaluate layout s weights).1
      currentScore := (evaluate layout s weights).2
      best := layout
      bestMetrics := (evaluate layout s weights).1
      bestScore := (evaluate layout s weights).2
      history := [{ iteration := 0, score := (evaluate layout s weights).2,
                    accepted := true, reason := "initial" }]
      rng := ⟨mkDraws (resolveSeed seed layout.meta_seed), 0⟩ }
    (optInvariant_init layout (evaluate layout s weights).2 (evaluate layout s weights).1 s _)
  exact ⟨key.2.2, key.1, key.2.1⟩

/-- C2.  Determinism: the whole optimization result (layout, metrics,
score, and the full history with its iteration indices, scores, accepted
flags and reason strings) is a function of the single uniform-draw stream
selected by the resolved seed.  Two runs whose RNGs produce the same
draws for that resolved seed — in particular two runs of the source with
identical arguments, since `random.Random(seed)` is deterministic — give
identical `OptimizationResult`s, even if the two RNGs differ at every
other seed. -/
theorem optimize_deterministic (expFn : ℚ → ℕ → ℕ → ℚ)
    (mkDraws1 mkDraws2 : Int → ℕ → ℚ) (layout : Layout) (iterations : ℕ)
    (s : ConstraintSettings) (weights : ScoreWeights) (seed : Option Int)
    (h : mkDraws1 (resolveSeed seed layout.meta_seed) =
      mkDraws2 (resolveSeed seed layout.meta_seed)) :
    optimizeLayout expFn mkDraws1 layout iterations s weights seed =
      optimizeLayout expFn mkDraws2 layout iterations s weights seed := by
  unfold optimizeLayout
  rw [h]

/-- C2 witness: at a concrete layout with metadata seed 3 and a one-
iteration run, a stream that is zero everywhere agrees at the resolved
seed with a stream that is zero only at seed 3, and the two runs return
the same result. -/
theorem optimize_deterministic_witness :
    (fun _ : ℕ => (0:ℚ)) =
        (fun _ : ℕ => if (3:Int) = 3 then (0:ℚ) else 1) ∧
      optimizeLayout (fun _ _ _ => 0) (fun _ _ => 0) testLayout 1 defaultSettings
          defaultWeights none =
        optimizeLayout (fun _ _ _ => 0)
          (fun s' _ => if s' = 3 then (0:ℚ) else 1) testLayout 1 defaultSettings
          defaultWeights none :=
  ⟨rfl, optimize_deterministic (fun _ _ _ => 0) (fun _ _ => 0)
    (fun s' _ => if s' = 3 then (0:ℚ) else 1) testLayout 1 defaultSettings
    defaultWeights none rfl⟩

/-- C10.  The optimizer's seed expression `seed or metadata.get("seed", 42)`
treats an explicit seed of 0 as falsy: for every layout whose metadata
carries a numeric seed, `optimize` with seed 0 returns exactly the same
result as `optimize` with the seed omitted. -/
theorem optimize_seed_zero_ignored (expFn : ℚ → ℕ → ℕ → ℚ) (mkDraws : Int → ℕ → ℚ)
    (layout : Layout) (iterations : ℕ) (s : ConstraintSettings)
    (weights : ScoreWeights) (v : Int) (_hseed : layout.meta_seed = some v) :
    optimizeLayout expFn mkDraws layout iterations s weights (some 0) =
      optimizeLayout expFn mkDraws layout iterations s weights none := by
  have hres : resolveSeed (some 0) layout.meta_seed = resolveSeed none layout.meta_seed := by
    simp [resolveSeed]
  unfold optimizeLayout
  rw [hres]

/-- C10 witness: at a concrete layout carrying metadata seed 3, one
iteration with seed 0 equals one iteration with the seed omitted. -/
theorem optimize_seed_zero_ignored_witness :
    testLayout.meta_seed = some 3 ∧
    optimizeLayout (fun _ _ _ => 0) (fun _ _ => 0) testLayout 1 defaultSettings
        defaultWeights (some 0) =
      optimizeLayout (fun _ _ _ => 0) (fun _ _ => 0) testLayout 1 defaultSettings
        defaultWeights none :=
  ⟨rfl, optimize_seed_zero_ignored (fun _ _ _ => 0) (fun _ _ => 0) testLayout 1
    defaultSettings defaultWeights 3 rfl⟩

/-- C9.  The scalar score returned by `evaluate` is the normalized-weight
weighted sum of the six sub-score terms (`rawScore`) when the validator
reports the layout feasible, and exactly that sum multiplied by 0.5 when
it reports it infeasible; the returned metrics' feasibility flag equals
the validator's `passed`. -/
theorem evaluate_feasibility_gate (L : Layout) (s : ConstraintSettings)
    (w : ScoreWeights) :
    (evaluate L s w).1.feasibility = (validateLayout L s).passed ∧
    (evaluate L s w).2 =
      (if (validateLayout L s).passed then rawScore L s w
       else rawScore L s w * (1/2)) := by
  unfold evaluate
  by_cases h : (validateLayout L s).passed <;> simp [h]

/-- C3 counterexample: a configuration whose mission duration (500 days)
lies far outside the supported `[30, 180]` range is not rejected with a
configuration error at generation time; the generator builds and
validates the layout and then fails with a generation-infeasibility
error carrying the failed rule id `duration_range`. -/
theorem generate_long_duration_no_config_error :
    defaultSettings.max_duration_days < cfgLongDuration.duration_days ∧
    generateInitialLayout id uHalf cfgLongDuration defaultSettings ≠
      .error .configError ∧
    generateInitialLayout id uHalf cfgLongDuration defaultSettings =
      .error (.generationError ["duration_range"]) := by
  refine ⟨by decide, ?_, by decide⟩
  decide

/-- C3 (amended).  The generator surfaces a configuration error, before
any layout is built or validated, exactly when the configured crew lies
outside `[settings.min_crew, settings.max_crew]`; an out-of-range
mission duration is instead surfaced (for in-range crew) as a
generation-infeasibility error whose rule identifiers include
`duration_range`. -/
theorem generate_config_error_iff_crew_out (sqrtFn : ℚ → ℚ) (u : ℕ → ℚ)
    (config : GenConfig) (s : ConstraintSettings) :
    (generateInitialLayout sqrtFn u config s = .error .configError ↔
      (config.crew < s.min_crew ∨ config.crew > s.max_crew)) ∧
    (¬ (config.crew < s.min_crew ∨ config.crew > s.max_crew) →
      ¬ (s.min_duration_days ≤ config.duration_days ∧
          config.duration_days ≤ s.max_duration_days) →
      ∃ rules, generateInitialLayout sqrtFn u config s =
          .error (.generationError rules) ∧ "duration_range" ∈ rules) := by
  constructor
  · constructor
    · intro h
      by_cases hc : config.crew < s.min_crew ∨ config.crew > s.max_crew
      · exact hc
      · exfalso
        unfold generateInitialLayout at h
        rw [if_neg hc] at h
        dsimp only at h
        cases hb1 : (validateLayout (buildInitial config u s) s).passed with
        | true =>
          rw [hb1] at h
          simp only [eq_self_iff_true, if_true] at h
          exact Except.noConfusion h
        | false =>
          rw [hb1] at h
          simp only [Bool.false_eq_true, if_false] at h
          cases hb2 : healCondition
              (validateLayout (buildInitial config u s) s).failed_rules with
          | true =>
            rw [hb2] at h
            simp only [eq_self_iff_true, if_true] at h
            cases hb3 :
                (validateLayout (healPass sqrtFn (buildInitial config u s) s) s).passed with
            | true =>
              rw [hb3] at h
              simp only [eq_self_iff_true, if_true] at h
              exact Except.noConfusion h
            | false =>
              rw [hb3] at h
              simp only [Bool.false_eq_true, if_false] at h
              exact GenError.noConfusion (Except.error.inj h)
          | false =>
            rw [hb2] at h
            simp only [Bool.false_eq_true, if_false] at h
            rw [hb1] at h
            simp only [Bool.false_eq_true, if_false] at h
            exact GenError.noConfusion (Except.error.inj h)
    · intro hc
      unfold generateInitialLayout
      rw [if_pos hc]
  · intro hcrew hdur
    unfold generateInitialLayout
    rw [if_neg hcrew]
    dsimp only
    have hd1 : "duration_range" ∈ failedRules (buildInitial config u s) s :=
      duration_mem_failedRules _ _ hdur
    have hp1 : (validateLayout (buildInitial config u s) s).passed = false :=
      mem_not_passed hd1
    rw [hp1]
    simp only [Bool.false_eq_true, if_false]
    cases hheal :
        healCondition (validateLayout (buildInitial config u s) s).failed_rules with
    | true =>
      simp only [eq_self_iff_true, if_true]
      have hd2 : "duration_range" ∈
          failedRules (healPass sqrtFn (buildInitial config u s) s) s :=
        duration_mem_failedRules _ _ hdur
      have hp2 : (validateLayout (healPass sqrtFn (buildInitial config u s) s) s).passed
          = false := mem_not_passed hd2
      rw [hp2]
      simp only [Bool.false_eq_true, if_false]
      exact ⟨_, rfl, hd2⟩
    | false =>
      simp only [Bool.false_eq_true, if_false]
      rw [hp1]
      simp only [Bool.false_eq_true, if_false]
      exact ⟨_, rfl, hd1⟩

/-- C3 amended witness: at the concrete long-duration configuration with
in-range crew, generation fails with a generation error mentioning
`duration_range`. -/
theorem generate_config_error_iff_crew_out_witness :
    ∃ rules, generateInitialLayout id uHalf cfgLongDuration defaultSettings =
        .error (.generationError rules) ∧ "duration_range" ∈ rules :=
  (generate_config_error_iff_crew_out id uHalf cfgLongDuration defaultSettings).2
    (by decide) (by decide)

/-- C4 counterexample: for the crew-4, duration-500, 100 m³
configuration, the first validation fails on `duration_range` *and*
`nhv_per_crew` — not solely on NHV-related rules — yet the corrective
pass's gate (`{"nhv_per_crew", "nhv_efficiency"} & failed` nonempty) is
true, so the one-shot NHV boost is applied anyway. -/
theorem heal_gate_fires_with_non_nhv_failure :
    (validateLayout (buildInitial cfgLongDurationSmall uHalf defaultSettings)
        defaultSettings).failed_rules = ["duration_range", "nhv_per_crew"] ∧
    healCondition ["duration_range", "nhv_per_crew"] = true ∧
    "duration_range" ∉ (["nhv_per_crew", "nhv_efficiency"] : List String) := by
  refine ⟨by decide, by decide, by decide⟩

/-- C4 (amended).  For in-range crew, when the first validation fails,
the one-shot corrective pass is applied exactly when an NHV-related rule
(`nhv_per_crew` or `nhv_efficiency`) is *among* the failed rules (not
only when the failure is solely NHV-related); after the pass the layout
is re-validated exactly once and a still-failing re-validation yields a
generation error carrying the still-failing rule identifiers, while a
false gate yields a generation error carrying the first validation's
rule identifiers. -/
theorem heal_pass_gated_by_nhv_membership (sqrtFn : ℚ → ℚ) (u : ℕ → ℚ)
    (config : GenConfig) (s : ConstraintSettings)
    (hcrew : ¬ (config.crew < s.min_crew ∨ config.crew > s.max_crew))
    (hfail : (validateLayout (buildInitial config u s) s).passed = false) :
    (healCondition (validateLayout (buildInitial config u s) s).failed_rules = true →
      generateInitialLayout sqrtFn u config s =
        (if (validateLayout (healPass sqrtFn (buildInitial config u s) s) s).passed then
          .ok (healPass sqrtFn (buildInitial config u s) s)
         else
          .error (.generationError
            (validateLayout (healPass sqrtFn (buildInitial config u s) s) s).failed_rules))) ∧
    (healCondition (validateLayout (buildInitial config u s) s).failed_rules = false →
      generateInitialLayout sqrtFn u config s =
        .error (.generationError
          (validateLayout (buildInitial config u s) s).failed_rules)) := by
  constructor
  · intro hheal
    unfold generateInitialLayout
    rw [if_neg hcrew]
    dsimp only
    rw [hfail]
    simp only [Bool.false_eq_true, if_false]
    rw [hheal]
    simp only [eq_self_iff_true, if_true]
  · intro hheal
    unfold generateInitialLayout
    rw [if_neg hcrew]
    dsimp only
    rw [hfail]
    simp only [Bool.false_eq_true, if_false]
    rw [hheal]
    simp only [Bool.false_eq_true, if_false]
    rw [hfail]
    simp only [Bool.false_eq_true, if_false]

/-- C4 amended witness: at the concrete configuration the gate is true,
the pass runs, and re-validation still fails on `duration_range` and
`nhv_per_crew`, which the generation error carries. -/
theorem heal_pass_gated_by_nhv_membership_witness :
    generateInitialLayout id uHalf cfgLongDurationSmall defaultSettings =
      .error (.generationError ["duration_range", "nhv_per_crew"]) := by
  have h := (heal_pass_gated_by_nhv_membership id uHalf cfgLongDurationSmall
    defaultSettings (by decide) (by decide)).1 (by decide)
  rw [h]
  decide

/-- C5 counterexample: in `stubCountLayout` the declared zone
`Exercise` is not reached by the BFS from the graph's first node, yet
`connectivity` is *not* in the failed rules, because the stub node
`Work` makes the reached-node count (2) equal the declared-name count
(2).  This refutes "connectivity fails iff some declared zone name is
unreached". -/
theorem connectivity_stub_counterexample :
    "Exercise" ∈ zoneNameSet stubCountLayout ∧
    "Exercise" ∉ connectivitySeen (buildAdjacency stubCountLayout) ∧
    "connectivity" ∉ (validateLayout stubCountLayout defaultSettings).failed_rules := by
  refine ⟨by decide, by decide, by decide⟩

/-- C5 (amended).  For every layout and settings, `connectivity` is in
`failed_rules` iff the symmetrized adjacency graph is empty or the
number of nodes the BFS reaches from the graph's first node differs
from the number of declared zone names — a count comparison, not
coverage of the declared names (stub nodes can stand in for unreached
declared zones). -/
theorem connectivity_flag_iff_count_mismatch (L : Layout) (s : ConstraintSettings) :
    "connectivity" ∈ (validateLayout L s).failed_rules ↔
      (buildAdjacency L = [] ∨
        (connectivitySeen (buildAdjacency L)).length ≠ (zoneNameSet L).length) :=
  connectivity_mem_failedRules L s

/-- C6 counterexample: `testLayout` is feasible, and removing its
mandatory `Exercise` zone (leaving the neighbors' references to it in
place, as list filtering does) flips the `connectivity` rule as well —
the removal does not leave all other rules unchanged. -/
theorem required_zone_removal_not_isolated :
    (validateLayout testLayout defaultSettings).passed = true ∧
    testLayoutNoExercise.zones = testLayout.zones.filter (fun z => z.name ≠ "Exercise") ∧
    "connectivity" ∉ (validateLayout testLayout defaultSettings).failed_rules ∧
    "connectivity" ∈ (validateLayout testLayoutNoExercise defaultSettings).failed_rules := by
  refine ⟨by decide, rfl, by decide, by decide⟩

/-- C6 (amended).  Whenever any zone name in `settings.required_zones`
is absent from the layout's declared zone names, `validate` flags
`required_zones` and returns `passed = false`.  (The original claim's
second half — that removing a single mandatory zone changes no other
rule — is refuted by the counterexample: removal can flip, e.g., the
connectivity rule via the remaining stub references.) -/
theorem required_zones_flagged_when_missing (L : Layout) (s : ConstraintSettings)
    (z : String) (hz : z ∈ s.required_zones)
    (habs : (zoneNameSet L).contains z = false) :
    "required_zones" ∈ (validateLayout L s).failed_rules ∧
    (validateLayout L s).passed = false := by
  have hmem : "required_zones" ∈ failedRules L s := required_mem_failedRules L s z hz habs
  exact ⟨hmem, mem_not_passed hmem⟩

/-- C6 amended witness: removing `Exercise` from the feasible
`testLayout` flags `required_zones` and fails validation. -/
theorem required_zones_flagged_when_missing_witness :
    "required_zones" ∈ (validateLayout testLayoutNoExercise defaultSettings).failed_rules ∧
    (validateLayout testLayoutNoExercise defaultSettings).passed = false :=
  required_zones_flagged_when_missing testLayoutNoExercise defaultSettings "Exercise"
    (by decide) (by decide)

/-- C7 counterexample: `stubTreeLayout`'s symmetrized graph is connected
(pairwise reachability holds) and is a spanning tree (3 nodes, 2
undirected edges, i.e. `adjSize = 2*(nodes-1)`; the DFS check also finds
no cycle), yet `redundant_paths` is *not* flagged: the stub node makes
the connectivity count fail, and the cycle check is skipped.  This
refutes "every layout with a connected acyclic graph gets
redundant_paths in failed_rules". -/
theorem redundant_paths_tree_counterexample :
    graphConnected (buildAdjacency stubTreeLayout) = true ∧
    (buildAdjacency stubTreeLayout).adjSize =
      2 * ((buildAdjacency stubTreeLayout).length - 1) ∧
    hasCycle (buildAdjacency stubTreeLayout) = false ∧
    "redundant_paths" ∉ (validateLayout stubTreeLayout defaultSettings).failed_rules := by
  refine ⟨by decide, by decide, by decide, by decide⟩

/-- C7 (amended).  The redundant-paths rule is evaluated only when the
connectivity rule passed: `redundant_paths ∈ failed_rules` implies
`connectivity ∉ failed_rules`.  And for every layout whose graph is
nonempty, whose BFS count matches the declared-name count (the
connectivity rule passes), and on which the depth-first back-edge check
finds no cycle anywhere in the graph, `redundant_paths` is flagged. -/
theorem redundant_paths_only_after_connectivity (L : Layout) (s : ConstraintSettings) :
    ("redundant_paths" ∈ (validateLayout L s).failed_rules →
      "connectivity" ∉ (validateLayout L s).failed_rules) ∧
    (buildAdjacency L ≠ [] →
      (connectivitySeen (buildAdjacency L)).length = (zoneNameSet L).length →
      hasCycle (buildAdjacency L) = false →
      "redundant_paths" ∈ (validateLayout L s).failed_rules) := by
  have hv : (validateLayout L s).failed_rules = failedRules L s := rfl
  constructor
  · intro hr
    rw [hv] at hr ⊢
    have hr' := (redundant_mem_failedRules L s).mp hr
    rw [connectivity_mem_failedRules]
    push_neg
    exact ⟨hr'.1, hr'.2.2⟩
  · intro h1 h2 h3
    rw [hv]
    exact (redundant_mem_failedRules L s).mpr ⟨h1, h3, h2⟩

/-- C7 amended witness: the five-zone chain layout (a spanning tree with
no stub nodes) has `redundant_paths` among its failed rules. -/
theorem redundant_paths_only_after_connectivity_witness :
    "redundant_paths" ∈ (validateLayout chainLayout defaultSettings).failed_rules :=
  (redundant_paths_only_after_connectivity chainLayout defaultSettings).2
    (by decide) (by decide) (by decide)

/-- **C8.** Closure invariant and Scenario A.  (1) Every layout returned by
`generate_initial_layout` — for any draws, configuration and settings — has zone
volumes summing exactly to its `pressurized_volume_m3` (after the ±5% jitter and
the 5 m³ floor, volumes are renormalized to the target, and the corrective pass
re-derives the pressurized volume from the boosted zones).  (2) For the
Scenario A configuration (crew 4, duration 90, Inflatable, 170 m³, ISRU target
0.6, 2 docking ports, seed 7) and any uniform draws in [0,1], generation
succeeds with the renormalized initial layout, its zone volumes sum to exactly
170, and validation of the result passes. -/
theorem generate_closure_and_scenarioA (sqrtFn : ℚ → ℚ) (u : ℕ → ℚ)
    (hu : ∀ i, 0 ≤ u i ∧ u i ≤ 1) :
    (∀ (u2 : ℕ → ℚ) (config : GenConfig) (s : ConstraintSettings) (L : Layout),
        generateInitialLayout sqrtFn u2 config s = .ok L →
        zoneVolumeSum L.zones = L.pressurized_volume_m3) ∧
    generateInitialLayout sqrtFn u cfgScenarioA defaultSettings =
      .ok (buildInitial cfgScenarioA u defaultSettings) ∧
    zoneVolumeSum (buildInitial cfgScenarioA u defaultSettings).zones = 170 ∧
    (validateLayout (buildInitial cfgScenarioA u defaultSettings)
        defaultSettings).passed = true := by
  have hferr : failedRules (buildInitial cfgScenarioA u defaultSettings)
      defaultSettings = [] := scenarioA_failed_empty u hu
  have hps : (validateLayout (buildInitial cfgScenarioA u defaultSettings)
      defaultSettings).passed = true := by
    unfold validateLayout
    dsimp only
    rw [hferr]
    rfl
  refine ⟨?_, ?_, ?_, hps⟩
  · intro u2 config s L h
    by_cases hc : config.crew < s.min_crew ∨ config.crew > s.max_crew
    · unfold generateInitialLayout at h
      rw [if_pos hc] at h
      exact Except.noConfusion h
    · unfold generateInitialLayout at h
      rw [if_neg hc] at h
      dsimp only at h
      cases hb1 : (validateLayout (buildInitial config u2 s) s).passed with
      | true =>
        rw [hb1] at h
        simp only [eq_self_iff_true, if_true] at h
        rw [← Except.ok.inj h]
        exact buildInitial_closure config u2 s
      | false =>
        rw [hb1] at h
        simp only [Bool.false_eq_true, if_false] at h
        cases hb2 : healCondition
            (validateLayout (buildInitial config u2 s) s).failed_rules with
        | true =>
          rw [hb2] at h
          simp only [eq_self_iff_true, if_true] at h
          cases hb3 :
              (validateLayout (healPass sqrtFn (buildInitial config u2 s) s) s).passed with
          | true =>
            rw [hb3] at h
            simp only [eq_self_iff_true, if_true] at h
            rw [← Except.ok.inj h]
            exact healPass_closure sqrtFn (buildInitial config u2 s) s
          | false =>
            rw [hb3] at h
            simp only [Bool.false_eq_true, if_false] at h
            exact Except.noConfusion h
        | false =>
          rw [hb2] at h
          simp only [Bool.false_eq_true, if_false] at h
          rw [hb1] at h
          simp only [Bool.false_eq_true, if_false] at h
          exact Except.noConfusion h
  · unfold generateInitialLayout
    rw [if_neg (by decide :
      ¬ (cfgScenarioA.crew < defaultSettings.min_crew ∨
          cfgScenarioA.crew > defaultSettings.max_crew))]
    dsimp only
    rw [hps]
    simp only [eq_self_iff_true, if_true]
  · rw [buildInitial_closure]
    rfl

/-- Witness for C8: the concrete draw stream `uHalf` lies in `[0,1]` and the
Scenario A generation succeeds, returning the renormalized initial layout. -/
theorem generate_closure_and_scenarioA_witness :
    (∀ i : ℕ, 0 ≤ uHalf i ∧ uHalf i ≤ 1) ∧
      generateInitialLayout id uHalf cfgScenarioA defaultSettings =
        .ok (buildInitial cfgScenarioA uHalf defaultSettings) :=
  ⟨fun _ => by constructor <;> norm_num [uHalf],
    (generate_closure_and_scenarioA id uHalf
      (fun _ => by constructor <;> norm_num [uHalf])).2.1⟩

end LunarLayout
